import Mathlib

/-!
Verification of the accelerated off-screen-rendering (OSR) texture import
pipeline of the godot-cef repository.

The development shallowly embeds the relevant Rust code:

* `src/crates/gdcef/src/accelerated_osr/windows/vulkan.rs`
  (`VulkanTextureImporter`: `queue_copy`, `process_pending_copy`, cache and
  LRU eviction, `new`),
* `src/crates/gdcef/src/accelerated_osr/windows/d3d12.rs`
  (`D3D12TextureImporter`: `queue_copy`, `process_pending_copy`,
  `check_device_state`, `wait_for_copy`),
* `src/gdcef/src/accelerated_osr/windows.rs` (`NativeHandle`:
  `from_handle`, `clone`, `drop`),
* `src/crates/gdcef/src/cef_init.rs` (`cef_retain`, `cef_release`).

Conventions of the embedding:

* Windows `HANDLE` values are modelled as `Int`; `0` (null) and `-1`
  (`INVALID_HANDLE_VALUE`) are the invalid sentinels recognised by
  `HANDLE::is_invalid`.
* Results of OS and GPU calls (handle duplication, fence status, driver
  resource queries, import and submit success) are inputs supplied by an
  environment record, so every modelled operation is a pure function of the
  importer state and that environment.
* Resource effects (handle duplication, handle closing, GPU image
  destruction, fresh imports, GPU submissions, blocking fence waits,
  logged warnings) are recorded in an event ledger carried in the state;
  new events are prepended.  Claims about leaks, double releases and
  submissions are statements about event counts.
* Error strings of the Rust code are mapped to constructors of `CopyError`;
  only the ok/error distinction and the identity of the error matter for
  the claims.
-/

namespace GodotCef

/-- Resource/GPU effect recorded by the model.  `dupHandle h` records a
successful `DuplicateHandle` producing the fresh handle `h`; `closeHandle h`
records a `CloseHandle h`; `destroyImage h` records freeing the GPU image and
memory of the cache entry owning duplicated handle `h`; `importImage k`
records a fresh GPU import performed for source identity `k`; `submit`
records a GPU queue submission; `blockWait` records a blocking CPU wait on a
fence; `warn` records a logged warning. -/
inductive ResEvent where
  | dupHandle (h : Int)
  | closeHandle (h : Int)
  | destroyImage (h : Int)
  | importImage (k : Int)
  | submit
  | blockWait
  | warn
deriving DecidableEq

/-- Outcome of a fallible importer operation; stands for the Rust result
type with the error string replaced by an error code. -/
inductive CopyError where
  | invalidSourceHandle
  | invalidSourceDimensions
  | duplicateHandleFailed
  | invalidDestinationRid
  | fenceWaitFailed
  | missingDuplicatedHandle
  | importFailed
  | noDestinationTexture
  | submitFailed
  | deviceRemoved
deriving DecidableEq

/-- Result of an importer call: `ok` or an error code. -/
inductive CallResult where
  | ok
  | err (e : CopyError)
deriving DecidableEq

/-- Boolean test for a successful `CallResult`. -/
def CallResult.isOk : CallResult → Bool
  | .ok => true
  | .err _ => false

/-- Number of occurrences of the event `e` in the ledger `l`. -/
def countE (l : List ResEvent) (e : ResEvent) : Nat :=
  (l.filter (fun x => x == e)).length

/-- Number of fresh-import events in the ledger `l`. -/
def importCount (l : List ResEvent) : Nat :=
  (l.filter (fun x => match x with | .importImage _ => true | _ => false)).length

/-- Number of GPU-image destruction events in the ledger `l`. -/
def destroyCount (l : List ResEvent) : Nat :=
  (l.filter (fun x => match x with | .destroyImage _ => true | _ => false)).length

/-- Windows `HANDLE::is_invalid`: null (`0`) or `INVALID_HANDLE_VALUE`
(`-1`). -/
def handleIsInvalid (h : Int) : Bool :=
  h == 0 || h == -1

/-! ## Vulkan importer model

Shallow embedding of `VulkanTextureImporter`
(`src/crates/gdcef/src/accelerated_osr/windows/vulkan.rs`). -/

/-- Paint event payload consumed by `queue_copy`: the shared texture handle
plus the coded size, mirroring the fields of `cef::AcceleratedPaintInfo`
read by the code. -/
structure PaintInfo where
  sharedTextureHandle : Int
  width : Nat
  height : Nat
deriving DecidableEq

/-- Rust `PendingVulkanCopy`.  The `Drop` impl closes `duplicatedHandle`
when present and valid. -/
structure PendingVulkanCopy where
  sourceHandle : Int
  duplicatedHandle : Option Int
  width : Nat
  height : Nat
deriving DecidableEq

/-- Events emitted when a `PendingVulkanCopy` is dropped: its duplicated
handle is closed if present and valid (`impl Drop for PendingVulkanCopy`). -/
def dropPendingV (p : PendingVulkanCopy) : List ResEvent :=
  match p.duplicatedHandle with
  | some h => if handleIsInvalid h then [] else [.closeHandle h]
  | none => []

/-- Events emitted when an `Option PendingVulkanCopy` slot is overwritten:
the old value, if any, is dropped. -/
def dropOptV (p : Option PendingVulkanCopy) : List ResEvent :=
  match p with
  | some q => dropPendingV q
  | none => []

/-- Rust `ImportedVulkanImage` cache entry.  The `image` and `memory` GPU
objects are represented by the entry itself; destroying the entry emits
`destroyImage`/`closeHandle` events for its duplicated handle. -/
structure ImportedVulkanImage where
  duplicatedHandle : Int
  width : Nat
  height : Nat
  lastUsed : Nat
deriving DecidableEq

/-- Events of `VulkanTextureImporter::destroy_imported_image`: destroy the
GPU image, free the memory, and close the duplicated handle
(unconditionally, as in the source). -/
def destroyImportedV (img : ImportedVulkanImage) : List ResEvent :=
  [.destroyImage img.duplicatedHandle, .closeHandle img.duplicatedHandle]

/-- Association-list stand-in for the importer's hash map from `isize` keys
to `ImportedVulkanImage` values.  Keys are the numeric source-handle
identities. -/
def VCache := List (Int × ImportedVulkanImage)

instance : DecidableEq VCache := by
  unfold VCache; infer_instance

/-- Lookup in the cache (`HashMap::get`). -/
def lookupEntry (c : VCache) (k : Int) : Option ImportedVulkanImage :=
  match c with
  | [] => none
  | p :: rest => if p.1 = k then some p.2 else lookupEntry rest k

/-- Key-membership test (`HashMap::contains_key`). -/
def containsKey (c : VCache) (k : Int) : Bool :=
  (lookupEntry c k).isSome

/-- Removal of a key (`HashMap::remove`); removes every binding of `k`,
which agrees with `HashMap::remove` on the de-duplicated caches the code
builds. -/
def removeEntry (c : VCache) (k : Int) : VCache :=
  c.filter (fun p => p.1 != k)

/-- Number of bindings of key `k` in the cache. -/
def countKey (c : VCache) (k : Int) : Nat :=
  (c.filter (fun p => p.1 == k)).length

/-- Update of the `last_used` stamp of the binding of `k`
(`cache.get_mut(..)` followed by the field assignment). -/
def touchEntry (c : VCache) (k : Int) (t : Nat) : VCache :=
  c.map (fun p => if p.1 = k then (p.1, { p.2 with lastUsed := t }) else p)

/-- The `needs_import` test of the Vulkan `queue_copy`: true when the key is
absent from the cache or cached with different dimensions. -/
def needsImportB (c : VCache) (k : Int) (w h : Nat) : Bool :=
  match lookupEntry c k with
  | some cached => cached.width != w || cached.height != h
  | none => true

/-- Rust fold of `process_pending_copy`'s eviction scan: starting from
`oldest_time = u64::MAX, oldest_key = None`, keep the first strictly
smaller `last_used`. -/
def oldestEntry (c : VCache) : Option (Int × Nat) :=
  c.foldl
    (fun acc p =>
      match acc with
      | none => some (p.1, p.2.lastUsed)
      | some (k, t) => if p.2.lastUsed < t then some (p.1, p.2.lastUsed) else some (k, t))
    none

/-- State of `VulkanTextureImporter` together with the modelled OS handle
allocator (`nextHandle` supplies fresh duplicated-handle values) and the
event ledger. -/
structure VulkanState where
  cache : VCache
  pending : Option PendingVulkanCopy
  currentFrame : Nat
  frameCount : Nat
  inFlight0 : Bool
  inFlight1 : Bool
  queueFamilyIndex : Nat
  usesSeparateQueue : Bool
  nextHandle : Int
  events : List ResEvent
deriving DecidableEq

/-- Reading `frames_in_flight[i]` for the slot index `i` (taken mod 2, the
code always passes `current_frame ∈ {0, 1}`). -/
def VulkanState.flightGet (s : VulkanState) (i : Nat) : Bool :=
  if i % 2 = 0 then s.inFlight0 else s.inFlight1

/-- Writing `frames_in_flight[i] = b`. -/
def VulkanState.flightSet (s : VulkanState) (i : Nat) (b : Bool) : VulkanState :=
  if i % 2 = 0 then { s with inFlight0 := b } else { s with inFlight1 := b }

/-- Environment for `queue_copy`: whether the `DuplicateHandle` OS call
succeeds. -/
structure QueueEnv where
  dupOk : Bool
deriving DecidableEq

/-- Shallow embedding of `VulkanTextureImporter::queue_copy`.  Validates the
source handle and dimensions, decides from the cache whether a fresh import
will be needed (duplicating the handle only in that case), and replaces any
existing pending copy, whose drop closes its duplicated handle. -/
def queueCopyV (s : VulkanState) (info : PaintInfo) (env : QueueEnv) :
    VulkanState × CallResult :=
  if handleIsInvalid info.sharedTextureHandle then
    (s, .err .invalidSourceHandle)
  else if info.width = 0 ∨ info.height = 0 then
    (s, .err .invalidSourceDimensions)
  else
    let handleVal := info.sharedTextureHandle
    if needsImportB s.cache handleVal info.width info.height then
      if env.dupOk then
        let d := s.nextHandle
        ({ s with
            nextHandle := s.nextHandle + 1
            pending := some ⟨handleVal, some d, info.width, info.height⟩
            events := dropOptV s.pending ++ .dupHandle d :: s.events },
         .ok)
      else
        (s, .err .duplicateHandleFailed)
    else
      ({ s with
          pending := some ⟨handleVal, none, info.width, info.height⟩
          events := dropOptV s.pending ++ s.events },
       .ok)

/-- Environment for the Vulkan `process_pending_copy`: validity of the
destination RID, status of the current slot's fence at the zero-timeout
poll, success of the GPU import, the value returned by the
`get_driver_resource(TEXTURE, ..)` query (`0` means unavailable), and
success of the queue submission. -/
structure VulkanEnv where
  dstValid : Bool
  fenceSignaled : Bool
  importOk : Bool
  texturePtr : Int
  submitOk : Bool
deriving DecidableEq

/-- Eviction step at the end of `process_pending_copy`: if the cache holds
more than ten entries, remove and destroy the entry with the smallest
`last_used`. -/
def evictIfNeeded (s : VulkanState) : VulkanState :=
  if 10 < s.cache.length then
    match oldestEntry s.cache with
    | some (k, _) =>
      match lookupEntry s.cache k with
      | some img =>
        { s with
            cache := removeEntry s.cache k
            events := destroyImportedV img ++ s.events }
      | none => s
    | none => s
  else s

/-- Tail of `process_pending_copy` after cache resolution: touch the
`last_used` stamp, query the destination texture, submit the copy, mark the
slot in flight, advance the double-buffer slot and the frame counter, and
evict opportunistically.  `pend` is the local `pending` value still owned by
the function: it is dropped (closing any remaining duplicated handle) on
every exit path. -/
def processVFinish (s : VulkanState) (pend : PendingVulkanCopy) (env : VulkanEnv) :
    VulkanState × CallResult :=
  let s1 := { s with cache := touchEntry s.cache pend.sourceHandle s.frameCount }
  if env.texturePtr = 0 then
    ({ s1 with events := dropPendingV pend ++ s1.events }, .err .noDestinationTexture)
  else if env.submitOk = false then
    ({ s1 with events := dropPendingV pend ++ s1.events }, .err .submitFailed)
  else
    let s2 := { s1 with events := .submit :: s1.events }
    let s3 := s2.flightSet s2.currentFrame true
    let s4 := { s3 with
      currentFrame := (s3.currentFrame + 1) % 2
      frameCount := s3.frameCount + 1 }
    let s5 := evictIfNeeded s4
    ({ s5 with events := dropPendingV pend ++ s5.events }, .ok)

/-- Middle of `process_pending_copy`: invalidate the cache entry on a
dimension mismatch, then import the pending handle when the key is absent
from the cache. -/
def processVCore (s : VulkanState) (pend : PendingVulkanCopy) (env : VulkanEnv) :
    VulkanState × CallResult :=
  let s1 :=
    match lookupEntry s.cache pend.sourceHandle with
    | some cached =>
      if cached.width != pend.width || cached.height != pend.height then
        { s with
            cache := removeEntry s.cache pend.sourceHandle
            events := destroyImportedV cached ++ s.events }
      else s
    | none => s
  if containsKey s1.cache pend.sourceHandle then
    processVFinish s1 pend env
  else
    match pend.duplicatedHandle with
    | none => (s1, .err .missingDuplicatedHandle)
    | some h =>
      let pend2 := { pend with duplicatedHandle := none }
      if env.importOk then
        let s2 := { s1 with
          cache := (pend.sourceHandle,
            (⟨h, pend.width, pend.height, s1.frameCount⟩ : ImportedVulkanImage)) :: s1.cache
          events := .importImage pend.sourceHandle :: s1.events }
        processVFinish s2 pend2 env
      else
        (s1, .err .importFailed)

/-- Shallow embedding of `VulkanTextureImporter::process_pending_copy`.
With no pending copy it is a no-op returning ok.  Otherwise it validates the
destination, polls the current slot's fence with a zero timeout — on timeout
it re-queues the pending copy and returns ok without doing GPU work — and
then resolves the request via the cache and submits the copy. -/
def processV (s : VulkanState) (env : VulkanEnv) : VulkanState × CallResult :=
  match s.pending with
  | none => (s, .ok)
  | some pend =>
    let s1 := { s with pending := none }
    if env.dstValid = false then
      ({ s1 with events := dropPendingV pend ++ s1.events }, .err .invalidDestinationRid)
    else if s1.flightGet s1.currentFrame then
      if env.fenceSignaled = false then
        ({ s1 with pending := some pend }, .ok)
      else
        processVCore (s1.flightSet s1.currentFrame false) pend env
    else
      processVCore s1 pend env

/-! ## D3D12 importer model

Shallow embedding of `D3D12TextureImporter`
(`src/crates/gdcef/src/accelerated_osr/windows/d3d12.rs`). -/

/-- Rust `PendingD3D12Copy`.  Its `Drop` impl closes the duplicated handle
when valid. -/
structure PendingD3D12Copy where
  duplicatedHandle : Int
  width : Nat
  height : Nat
deriving DecidableEq

/-- Events emitted when a `PendingD3D12Copy` is dropped. -/
def dropPendingD (p : PendingD3D12Copy) : List ResEvent :=
  if handleIsInvalid p.duplicatedHandle then [] else [.closeHandle p.duplicatedHandle]

/-- Events emitted when an `Option PendingD3D12Copy` slot is overwritten. -/
def dropOptD (p : Option PendingD3D12Copy) : List ResEvent :=
  match p with
  | some q => dropPendingD q
  | none => []

/-- State of `D3D12TextureImporter`, with the modelled handle allocator and
event ledger.  `importedResource` is the duplicated handle kept alive in
`ImportedD3D11Resource` for the in-flight GPU copy. -/
structure D3D12State where
  fenceValue : Nat
  deviceRemovedLogged : Bool
  pending : Option PendingD3D12Copy
  importedResource : Option Int
  copyInFlight : Bool
  nextHandle : Int
  events : List ResEvent
deriving DecidableEq

/-- Environment for the D3D12 `process_pending_copy`: device health
(`GetDeviceRemovedReason`), destination validity, whether the fence's
completed value has already reached `fence_value` (if not, waits block),
success of `OpenSharedResource1`, value of the destination
`get_driver_resource(TEXTURE, ..)` query, and success of the wrap/copy/
signal submission sequence. -/
structure D3D12Env where
  deviceOk : Bool
  dstValid : Bool
  fenceCompleted : Bool
  importOk : Bool
  texturePtr : Int
  submitOk : Bool
deriving DecidableEq

/-- Shallow embedding of `D3D12TextureImporter::check_device_state`:
edge-triggered device-removed logging. -/
def checkDeviceState (s : D3D12State) (env : D3D12Env) : D3D12State × CallResult :=
  if env.deviceOk then
    ({ s with deviceRemovedLogged := false }, .ok)
  else if s.deviceRemovedLogged = false then
    ({ s with deviceRemovedLogged := true, events := .warn :: s.events }, .err .deviceRemoved)
  else
    (s, .err .deviceRemoved)

/-- Shallow embedding of `D3D12TextureImporter::queue_copy`: validate,
duplicate the handle, and replace (dropping, hence closing) any previous
pending copy. -/
def queueCopyD (s : D3D12State) (info : PaintInfo) (env : QueueEnv) :
    D3D12State × CallResult :=
  if handleIsInvalid info.sharedTextureHandle then
    (s, .err .invalidSourceHandle)
  else if info.width = 0 ∨ info.height = 0 then
    (s, .err .invalidSourceDimensions)
  else if env.dupOk then
    let d := s.nextHandle
    ({ s with
        nextHandle := s.nextHandle + 1
        pending := some ⟨d, info.width, info.height⟩
        events := dropOptD s.pending ++ .dupHandle d :: s.events },
     .ok)
  else
    (s, .err .duplicateHandleFailed)

/-- Shallow embedding of `D3D12TextureImporter::wait_for_copy`: if a copy is
in flight and the fence has not yet reached `fence_value`, block on the
fence event; then clear the in-flight flag. -/
def waitForCopyD (s : D3D12State) (env : D3D12Env) : D3D12State :=
  if s.copyInFlight = false then s
  else
    let s1 :=
      if 0 < s.fenceValue ∧ env.fenceCompleted = false then
        { s with events := .blockWait :: s.events }
      else s
    { s1 with copyInFlight := false }

/-- Shallow embedding of `D3D12TextureImporter::process_pending_copy`:
device-health check first, then the no-pending no-op, destination
validation, a blocking wait for any in-flight copy, release of the
previously imported resource, a fresh import of the pending handle, the
destination query, and the copy submission.  The successful path transfers
handle
ownership from the pending copy to `importedResource`. -/
def processD (s : D3D12State) (env : D3D12Env) : D3D12State × CallResult :=
  let chk := checkDeviceState s env
  match chk.2 with
  | .err e => (chk.1, .err e)
  | .ok =>
    let s0 := chk.1
    match s0.pending with
    | none => (s0, .ok)
    | some pend =>
      let s1 := { s0 with pending := none }
      if env.dstValid = false then
        ({ s1 with events := dropPendingD pend ++ s1.events }, .err .invalidDestinationRid)
      else
        let s2 := if s1.copyInFlight then waitForCopyD s1 env else s1
        let s3 :=
          match s2.importedResource with
          | some r => { s2 with importedResource := none, events := .closeHandle r :: s2.events }
          | none => s2
        if handleIsInvalid pend.duplicatedHandle then
          ({ s3 with events := dropPendingD pend ++ s3.events }, .err .invalidSourceHandle)
        else if env.importOk = false then
          let s4 :=
            if s3.deviceRemovedLogged = false then
              { s3 with deviceRemovedLogged := true, events := .warn :: s3.events }
            else s3
          ({ s4 with events := dropPendingD pend ++ s4.events }, .err .importFailed)
        else
          let s4 := { s3 with
            deviceRemovedLogged := false
            events := .importImage pend.duplicatedHandle :: s3.events }
          if env.texturePtr = 0 then
            ({ s4 with events := dropPendingD pend ++ s4.events }, .err .noDestinationTexture)
          else
            let s5 :=
              if 0 < s4.fenceValue ∧ env.fenceCompleted = false ∧ s4.copyInFlight then
                { s4 with events := .blockWait :: s4.events }
              else s4
            if env.submitOk = false then
              ({ s5 with events := dropPendingD pend ++ s5.events }, .err .submitFailed)
            else
              let s6 := { s5 with
                fenceValue := s5.fenceValue + 1
                events := .submit :: s5.events }
              ({ s6 with
                  copyInFlight := true
                  importedResource := some pend.duplicatedHandle },
               .ok)

/-! ## NativeHandle model

Shallow embedding of `NativeHandle`
(`src/gdcef/src/accelerated_osr/windows.rs`). -/

/-- Rust `NativeHandle`: a Windows handle value plus the `owned` flag that
controls whether `Drop` closes it. -/
structure NativeHandle where
  handle : Int
  owned : Bool
deriving DecidableEq

/-- Shallow embedding of `NativeHandle::from_handle`.  `dupResult` is the
outcome of the `DuplicateHandle` OS call: `some d` models success with the
duplicate `d` written to the out-parameter, `none` models failure.  The
second component records whether the failure warning was logged.  Never
panics: defined on all inputs. -/
def nhFromHandle (raw : Int) (dupResult : Option Int) : NativeHandle × Bool :=
  if handleIsInvalid raw then
    (⟨0, false⟩, false)
  else
    match dupResult with
    | some d =>
      if handleIsInvalid d = false then (⟨d, true⟩, false)
      else (⟨raw, false⟩, true)
    | none => (⟨raw, false⟩, true)

/-- Shallow embedding of `Clone for NativeHandle`: an invalid handle clones
to the default (invalid, unowned) value; otherwise the handle is duplicated,
falling back to an unowned alias when the OS call fails or yields an invalid
duplicate. -/
def nhClone (nh : NativeHandle) (dupResult : Option Int) : NativeHandle :=
  if handleIsInvalid nh.handle then
    ⟨0, false⟩
  else
    match dupResult with
    | some d =>
      if handleIsInvalid d = false then ⟨d, true⟩
      else ⟨nh.handle, false⟩
    | none => ⟨nh.handle, false⟩

/-- Events emitted by `Drop for NativeHandle`: close the handle iff it is
owned and valid. -/
def nhDropEvents (nh : NativeHandle) : List ResEvent :=
  if nh.owned && handleIsInvalid nh.handle = false then [.closeHandle nh.handle] else []

/-! ## CEF lifecycle model

Shallow embedding of `cef_retain` / `cef_release`
(`src/crates/gdcef/src/cef_init.rs`). -/

/-- Rust `CefState`: the process-wide reference count and initialized
flag. -/
structure CefSt where
  refCount : Nat
  initialized : Bool
deriving DecidableEq

/-- Lifecycle events: a successful `cef::initialize` and a
`cef::shutdown`. -/
inductive CefEvent where
  | initE
  | shutdownE
deriving DecidableEq

/-- Shallow embedding of `cef_retain`.  `initOk` is the outcome of the
framework-load plus `initialize_cef` sequence; on failure the error
propagates before any state field is written.  Returns the new state, the
lifecycle events emitted, and whether the call succeeded. -/
def cefRetain (s : CefSt) (initOk : Bool) : CefSt × List CefEvent × Bool :=
  if s.refCount = 0 then
    if initOk then
      ({ refCount := 1, initialized := true }, [.initE], true)
    else
      (s, [], false)
  else
    ({ s with refCount := s.refCount + 1 }, [], true)

/-- Shallow embedding of `cef_release`: a no-op at reference count zero;
otherwise decrement, and shut down exactly when the count reaches zero with
the initialized flag set. -/
def cefRelease (s : CefSt) : CefSt × List CefEvent :=
  if s.refCount = 0 then
    (s, [])
  else
    let rc := s.refCount - 1
    if rc = 0 ∧ s.initialized then
      ({ refCount := 0, initialized := false }, [.shutdownE])
    else
      ({ s with refCount := rc }, [])

/-- Operation of the CEF lifecycle API, with the environment outcome of the
initialization attempt attached to `retain`. -/
inductive CefOp where
  | retain (initOk : Bool)
  | release
deriving DecidableEq

/-- Run of a sequence of retain/release calls, collecting the emitted
lifecycle events in order. -/
def cefRun : CefSt → List CefOp → CefSt × List CefEvent
  | s, [] => (s, [])
  | s, op :: rest =>
    let r :=
      match op with
      | .retain ok =>
        let t := cefRetain s ok
        (t.1, t.2.1)
      | .release => cefRelease s
    let t := cefRun r.1 rest
    (t.1, r.2 ++ t.2)

/-- Strict-alternation check for a lifecycle trace: the events must follow
the pattern `expect, flip expect, expect, ...`. -/
def strictAlt : List CefEvent → CefEvent → Bool
  | [], _ => true
  | e :: rest, expect =>
    e == expect &&
      strictAlt rest (match expect with | .initE => .shutdownE | .shutdownE => .initE)

/-! ## Vulkan importer construction model

Shallow embedding of `VulkanTextureImporter::new` and `find_copy_queue`. -/

/-- Queue-family description read back from
`vkGetPhysicalDeviceQueueFamilyProperties`. -/
structure QueueFamily where
  queueCount : Nat
  graphics : Bool
  compute : Bool
  transfer : Bool
deriving DecidableEq

/-- Environment for `VulkanTextureImporter::new`: the results of the
RenderingDevice acquisition, the `get_driver_resource` queries for the
logical and physical device, the library load, the queue-family query, the
two `vkGetDeviceQueue` calls, and the command-pool / command-buffer / fence
creations. -/
structure VulkanNewEnv where
  renderingDeviceOk : Bool
  devicePtr : Int
  libLoadOk : Bool
  physicalDevicePtr : Int
  hasQueueFamilyFn : Bool
  families : List QueueFamily
  preferredQueuePtr : Int
  fallbackQueuePtr : Int
  createPoolOk : Bool
  allocCmdBufsOk : Bool
  fence0Ok : Bool
  fence1Ok : Bool
deriving DecidableEq

/-- Shallow embedding of `VulkanTextureImporter::find_copy_queue`: default
to Godot's graphics queue; prefer a second queue in the graphics family,
else a dedicated non-graphics transfer family. -/
def findCopyQueue (env : VulkanNewEnv) : Nat × Nat × Bool :=
  if env.physicalDevicePtr = 0 then (0, 0, false)
  else if env.hasQueueFamilyFn = false then (0, 0, false)
  else if env.families.length = 0 then (0, 0, false)
  else if 1 < ((env.families.head?.map QueueFamily.queueCount).getD 0) then (0, 1, true)
  else
    match env.families.findIdx? (fun f => f.transfer && !f.graphics && 0 < f.queueCount) with
    | some i => (i, 0, true)
    | none => (0, 0, false)

/-- Fresh importer state produced by a successful
`VulkanTextureImporter::new`. -/
def vulkanInit : VulkanState :=
  { cache := []
    pending := none
    currentFrame := 0
    frameCount := 0
    inFlight0 := false
    inFlight1 := false
    queueFamilyIndex := 0
    usesSeparateQueue := false
    nextHandle := 1
    events := [] }

/-- Shallow embedding of `VulkanTextureImporter::new`: every unavailable
external resource (no RenderingDevice, a zero logical-device pointer from
`get_driver_resource`, a failed library load, no obtainable queue, failed
pool/buffer/fence creation) makes construction return `none` — a soft
"unsupported" result rather than a crash. -/
def vulkanNew (env : VulkanNewEnv) : Option VulkanState :=
  if env.renderingDeviceOk = false then none
  else if env.devicePtr = 0 then none
  else if env.libLoadOk = false then none
  else
    let fq := findCopyQueue env
    let queue := if env.preferredQueuePtr = 0 then env.fallbackQueuePtr else env.preferredQueuePtr
    if queue = 0 then none
    else if env.createPoolOk = false then none
    else if env.allocCmdBufsOk = false then none
    else if env.fence0Ok = false then none
    else if env.fence1Ok = false then none
    else some { vulkanInit with queueFamilyIndex := fq.1, usesSeparateQueue := fq.2.2 }

/-! ## Sequences, ledgers and claim statements -/

/-- Fresh importer state produced by a successful
`D3D12TextureImporter::new` (`fence_value: 0`, nothing pending, nothing in
flight). -/
def d3d12Init : D3D12State :=
  { fenceValue := 0
    deviceRemovedLogged := false
    pending := none
    importedResource := none
    copyInFlight := false
    nextHandle := 1
    events := [] }

/-- Duplicated handle held by an optional Vulkan pending copy. -/
def pendHandleOpt (p : Option PendingVulkanCopy) : Option Int :=
  match p with
  | none => none
  | some q => q.duplicatedHandle

/-- Duplicated handle held by an optional D3D12 pending copy. -/
def pendHandleOptD (p : Option PendingD3D12Copy) : Option Int :=
  match p with
  | none => none
  | some q => some q.duplicatedHandle

/-- Duplicated handle held by the Vulkan importer's pending copy, if any. -/
def pendingHandleV (s : VulkanState) : Option Int :=
  pendHandleOpt s.pending

/-- Duplicated handle held by the D3D12 importer's pending copy, if any. -/
def pendingHandleD (s : D3D12State) : Option Int :=
  pendHandleOptD s.pending

/-- Two-call sequence used as the concrete C1 scenario: identities `5` and
`6`. -/
def c1Calls : List (PaintInfo × QueueEnv) :=
  [(⟨5, 100, 100⟩, ⟨true⟩), (⟨6, 50, 50⟩, ⟨true⟩)]

/-- Well-formedness of a pending handle relative to the handle allocator:
any held duplicated handle is a positive value below the next fresh one. -/
def pendWF (p : Option Int) (next : Int) : Prop :=
  ∀ h, p = some h → 0 < h ∧ h < next

/-- Accounting summary of the ledger segment `d` produced by a sequence of
`queue_copy` calls that moved the handle allocator from `n0` to `n1` and the
pending duplicated handle from `p0` to `p1`: every handle in `[n0, n1)` was
duplicated exactly once and closed exactly once unless it is the surviving
pending handle; no handle outside that range was duplicated; a pre-existing
handle is closed exactly once iff it was the pending handle and was
replaced; no imports and no submissions occur. -/
structure HandleLedger (n0 n1 : Int) (p0 p1 : Option Int) (d : List ResEvent) : Prop where
  mono : n0 ≤ n1
  wf : pendWF p1 n1
  persist : ∀ h, p1 = some h → h < n0 → p0 = some h
  noImports : importCount d = 0
  noSubmits : countE d .submit = 0
  dups : ∀ h, countE d (.dupHandle h) = if n0 ≤ h ∧ h < n1 then 1 else 0
  closesHigh : ∀ h, n0 ≤ h →
    countE d (.closeHandle h) = if h < n1 ∧ p1 ≠ some h then 1 else 0
  closesLow : ∀ h, h < n0 →
    countE d (.closeHandle h) = if p0 = some h ∧ p1 ≠ some h then 1 else 0

/-- Fold of a sequence of Vulkan `queue_copy` calls, collecting the per-call
success flags in order. -/
def queueSeqV : VulkanState → List (PaintInfo × QueueEnv) → VulkanState × List Bool
  | s, [] => (s, [])
  | s, c :: rest =>
    let r := queueCopyV s c.1 c.2
    let t := queueSeqV r.1 rest
    (t.1, r.2.isOk :: t.2)

/-- Fold of a sequence of D3D12 `queue_copy` calls, collecting the per-call
success flags in order. -/
def queueSeqD : D3D12State → List (PaintInfo × QueueEnv) → D3D12State × List Bool
  | s, [] => (s, [])
  | s, c :: rest =>
    let r := queueCopyD s c.1 c.2
    let t := queueSeqD r.1 rest
    (t.1, r.2.isOk :: t.2)

/-- Last element of a flagged list whose flag is `true`, if any. -/
def lastOk {α : Type} : List (α × Bool) → Option α
  | [] => none
  | p :: rest =>
    match lastOk rest with
    | some a => some a
    | none => if p.2 then some p.1 else none

/-- Claim C2 as stated: whenever a pending request exists, the destination
is valid, and the command slot about to be reused still has a submission in
flight, the Vulkan `process_pending_copy` waits for that submission's fence
and then imports and submits the pending request in the same call — so that
very call records a GPU submission. -/
def c2Claim : Prop :=
  ∀ (s : VulkanState) (env : VulkanEnv) (p : PendingVulkanCopy),
    s.pending = some p → env.dstValid = true →
    s.flightGet s.currentFrame = true →
    countE s.events .submit < countE (processV s env).1.events .submit

/-- Concrete state refuting C2: slot 0 is in flight and a request is
pending. -/
def c2State : VulkanState :=
  { vulkanInit with
      pending := some ⟨7, some 3, 100, 100⟩
      inFlight0 := true
      nextHandle := 4 }

/-- Environment refuting C2: valid destination, but the zero-timeout fence
poll finds the previous submission still in flight. -/
def c2Env : VulkanEnv :=
  { dstValid := true
    fenceSignaled := false
    importOk := true
    texturePtr := 1
    submitOk := true }

/-- Claim C3 as stated, instantiated to the D3D12 importer: queueing and
processing a request, then queueing and processing a second request with the
same source handle and identical dimensions, performs no fresh import on the
second processing. -/
def c3ClaimD3D12 : Prop :=
  ∀ (s : D3D12State) (env : D3D12Env) (info : PaintInfo) (qe : QueueEnv),
    importCount (processD (queueCopyD
        (processD (queueCopyD s info qe).1 env).1 info qe).1 env).1.events =
      importCount (processD (queueCopyD s info qe).1 env).1.events

/-- All-success environment for the D3D12 importer. -/
def c3EnvD : D3D12Env :=
  { deviceOk := true
    dstValid := true
    fenceCompleted := true
    importOk := true
    texturePtr := 1
    submitOk := true }

/-- All-success environment for the Vulkan importer's per-frame
processing. -/
def c4Env : VulkanEnv :=
  { dstValid := true
    fenceSignaled := true
    importOk := true
    texturePtr := 1
    submitOk := true }

/-- One queue-then-process round of the C4 scenario for source identity
`i + 1` at 100 by 100. -/
def c4Step (s : VulkanState) (i : Nat) : VulkanState :=
  (processV (queueCopyV s ⟨(i : Int) + 1, 100, 100⟩ ⟨true⟩).1 c4Env).1

/-- First `n` rounds of the C4 scenario: distinct source identities
`1 .. n`, each queued and processed exactly once. -/
def c4Run (n : Nat) : VulkanState :=
  (List.range n).foldl c4Step vulkanInit

/-- Claim C5 as stated: with no pending request, `process_pending_copy`
returns ok and changes nothing, on both importers. -/
def c5Claim : Prop :=
  (∀ (s : VulkanState) (env : VulkanEnv), s.pending = none →
    processV s env = (s, .ok)) ∧
  (∀ (s : D3D12State) (env : D3D12Env), s.pending = none →
    processD s env = (s, .ok))

/-- Environment refuting C5: the D3D12 device is removed. -/
def c5Env : D3D12Env :=
  { deviceOk := false
    dstValid := true
    fenceCompleted := true
    importOk := true
    texturePtr := 1
    submitOk := true }

/-- Claim C7 as stated, clone part: cloning an owned valid `NativeHandle`
produces an independently owned duplicate, whatever the outcome of the OS
duplication call. -/
def c7CloneClaim : Prop :=
  ∀ (nh : NativeHandle) (dupResult : Option Int),
    nh.owned = true → handleIsInvalid nh.handle = false →
    (nhClone nh dupResult).owned = true ∧ (nhClone nh dupResult).handle ≠ nh.handle

/-- Initial process-wide CEF lifecycle state. -/
def cefInitSt : CefSt :=
  { refCount := 0, initialized := false }

/-- Lifecycle-state sanity: the initialized flag tracks a positive reference
count. -/
def goodCef (s : CefSt) : Prop :=
  s.initialized = true ↔ 0 < s.refCount

/-- Next lifecycle event a well-formed trace expects. -/
def nextExpect (s : CefSt) : CefEvent :=
  if s.initialized then .shutdownE else .initE

/-! ## Helper lemmas on ledgers and counters -/

theorem countE_nil (e : ResEvent) : countE [] e = 0 := rfl

theorem countE_cons (x : ResEvent) (l : List ResEvent) (e : ResEvent) :
    countE (x :: l) e = (if x = e then 1 else 0) + countE l e := by
  by_cases h : x = e <;> simp [countE, h, Nat.add_comm]

theorem countE_append (a b : List ResEvent) (e : ResEvent) :
    countE (a ++ b) e = countE a e + countE b e := by
  simp [countE, List.filter_append]

theorem importCount_nil : importCount [] = 0 := rfl

theorem importCount_cons (x : ResEvent) (l : List ResEvent) :
    importCount (x :: l) =
      (match x with | .importImage _ => 1 | _ => 0) + importCount l := by
  cases x <;> simp [importCount, Nat.add_comm]

theorem importCount_append (a b : List ResEvent) :
    importCount (a ++ b) = importCount a + importCount b := by
  simp [importCount, List.filter_append]

theorem countE_importImage_le (l : List ResEvent) (k : Int) :
    countE l (.importImage k) ≤ importCount l := by
  induction l with
  | nil => exact Nat.le_refl 0
  | cons x rest ih =>
    rw [countE_cons, importCount_cons]
    have hx : (if x = ResEvent.importImage k then 1 else 0) ≤
        (match x with | ResEvent.importImage _ => (1 : Nat) | _ => 0) := by
      cases x <;> split_ifs <;> simp_all
    omega

theorem handleIsInvalid_of_pos {h : Int} (hp : 0 < h) :
    handleIsInvalid h = false := by
  simp only [handleIsInvalid, Bool.or_eq_false_iff, beq_eq_false_iff_ne]
  omega

theorem countE_dropPendingV_dup (p : PendingVulkanCopy) (h : Int) :
    countE (dropPendingV p) (.dupHandle h) = 0 := by
  obtain ⟨src, dh, w, ht⟩ := p
  cases dh with
  | none => rfl
  | some x =>
    simp only [dropPendingV]
    split <;> simp [countE_cons, countE_nil]

theorem countE_dropPendingV_submit (p : PendingVulkanCopy) :
    countE (dropPendingV p) .submit = 0 := by
  obtain ⟨src, dh, w, ht⟩ := p
  cases dh with
  | none => rfl
  | some x =>
    simp only [dropPendingV]
    split <;> simp [countE_cons, countE_nil]

theorem importCount_dropPendingV (p : PendingVulkanCopy) :
    importCount (dropPendingV p) = 0 := by
  obtain ⟨src, dh, w, ht⟩ := p
  cases dh with
  | none => rfl
  | some x =>
    simp only [dropPendingV]
    split <;> simp [importCount_cons, importCount_nil]

theorem countE_dropPendingD_dup (p : PendingD3D12Copy) (h : Int) :
    countE (dropPendingD p) (.dupHandle h) = 0 := by
  unfold dropPendingD
  split <;> simp [countE_cons, countE_nil]

theorem countE_dropPendingD_submit (p : PendingD3D12Copy) :
    countE (dropPendingD p) .submit = 0 := by
  unfold dropPendingD
  split <;> simp [countE_cons, countE_nil]

theorem importCount_dropPendingD (p : PendingD3D12Copy) :
    importCount (dropPendingD p) = 0 := by
  unfold dropPendingD
  split <;> simp [importCount_cons, importCount_nil]

theorem importCount_destroyImportedV (img : ImportedVulkanImage) :
    importCount (destroyImportedV img) = 0 := by
  simp [destroyImportedV, importCount_cons, importCount_nil]

theorem countE_destroyImportedV_submit (img : ImportedVulkanImage) :
    countE (destroyImportedV img) .submit = 0 := by
  simp [destroyImportedV, countE_cons, countE_nil]

theorem countE_destroyImportedV_dup (img : ImportedVulkanImage) (h : Int) :
    countE (destroyImportedV img) (.dupHandle h) = 0 := by
  simp [destroyImportedV, countE_cons, countE_nil]

/-! ## Claim C6 -/

/-- C6: every `queue_copy` call whose paint info carries a null/invalid
source handle or a zero width or zero height returns an error and leaves
the importer state (pending copy, cache, counters, ledger) unchanged,
on both the Vulkan and the D3D12 importer; in particular an existing pending
request is neither replaced nor released. -/
theorem c6_queue_copy_invalid_input_unchanged
    (sv : VulkanState) (sd : D3D12State) (info : PaintInfo) (ev ed : QueueEnv)
    (h : handleIsInvalid info.sharedTextureHandle = true ∨
      info.width = 0 ∨ info.height = 0) :
    ((queueCopyV sv info ev).1 = sv ∧ (queueCopyV sv info ev).2.isOk = false) ∧
    ((queueCopyD sd info ed).1 = sd ∧ (queueCopyD sd info ed).2.isOk = false) := by
  rcases h with h | h | h
  · exact ⟨by simp [queueCopyV, h, CallResult.isOk],
      by simp [queueCopyD, h, CallResult.isOk]⟩
  · constructor
    · by_cases hh : handleIsInvalid info.sharedTextureHandle <;>
        simp [queueCopyV, hh, h, CallResult.isOk]
    · by_cases hh : handleIsInvalid info.sharedTextureHandle <;>
        simp [queueCopyD, hh, h, CallResult.isOk]
  · constructor
    · by_cases hh : handleIsInvalid info.sharedTextureHandle <;>
        simp [queueCopyV, hh, h, CallResult.isOk]
    · by_cases hh : handleIsInvalid info.sharedTextureHandle <;>
        simp [queueCopyD, hh, h, CallResult.isOk]

/-- Witness for C6 at a concrete input: a null source handle. -/
theorem c6_queue_copy_invalid_input_unchanged_witness :
    (handleIsInvalid (0 : Int) = true ∨ (100 : Nat) = 0 ∨ (100 : Nat) = 0) ∧
    (((queueCopyV vulkanInit ⟨0, 100, 100⟩ ⟨true⟩).1 = vulkanInit ∧
        (queueCopyV vulkanInit ⟨0, 100, 100⟩ ⟨true⟩).2.isOk = false) ∧
      ((queueCopyD d3d12Init ⟨0, 100, 100⟩ ⟨true⟩).1 = d3d12Init ∧
        (queueCopyD d3d12Init ⟨0, 100, 100⟩ ⟨true⟩).2.isOk = false)) :=
  ⟨Or.inl (by decide),
    c6_queue_copy_invalid_input_unchanged vulkanInit d3d12Init ⟨0, 100, 100⟩ ⟨true⟩ ⟨true⟩
      (Or.inl (by decide))⟩

/-! ## Claim C8 -/

/-- C8: `NativeHandle::from_handle` never panics.  On a null/invalid raw
handle it returns the invalid, unowned handle; when the OS duplication fails
(or yields an invalid duplicate) it returns an unowned fallback wrapping the
original value and logs a warning (second component `true`); on success it
returns the owned duplicate with no warning. -/
theorem c8_from_handle_duplication_failure_fallback
    (raw : Int) (dupResult : Option Int) :
    (handleIsInvalid raw = true → nhFromHandle raw dupResult = (⟨0, false⟩, false)) ∧
    (handleIsInvalid raw = false → dupResult = none →
      nhFromHandle raw dupResult = (⟨raw, false⟩, true)) ∧
    (∀ d, handleIsInvalid raw = false → dupResult = some d → handleIsInvalid d = true →
      nhFromHandle raw dupResult = (⟨raw, false⟩, true)) ∧
    (∀ d, handleIsInvalid raw = false → dupResult = some d → handleIsInvalid d = false →
      nhFromHandle raw dupResult = (⟨d, true⟩, false)) := by
  refine ⟨fun h => by simp [nhFromHandle, h],
    fun h hn => by simp [nhFromHandle, h, hn],
    fun d h hs hd => by simp [nhFromHandle, h, hs, hd],
    fun d h hs hd => by simp [nhFromHandle, h, hs, hd]⟩

/-- Witness for C8 at concrete inputs: a failing duplication of the valid
raw handle `5`, and construction from the null handle. -/
theorem c8_from_handle_duplication_failure_fallback_witness :
    (handleIsInvalid (5 : Int) = false ∧
      nhFromHandle 5 none = (⟨5, false⟩, true)) ∧
    (handleIsInvalid (0 : Int) = true ∧
      nhFromHandle 0 (some 9) = (⟨0, false⟩, false)) :=
  ⟨⟨by decide, (c8_from_handle_duplication_failure_fallback 5 none).2.1 (by decide) rfl⟩,
    ⟨by decide, (c8_from_handle_duplication_failure_fallback 0 (some 9)).1 (by decide)⟩⟩

/-! ## Claim C7 -/

/-- C7 counterexample: cloning the owned, valid handle `5` when the OS
`DuplicateHandle` call fails yields the unowned alias `⟨5, false⟩`, not an
independently owned duplicate — refuting the clone part of the claim as
stated. -/
theorem c7_clone_counterexample :
    ¬ c7CloneClaim := by
  intro hclaim
  have h := hclaim ⟨5, true⟩ none rfl (by decide)
  have : (nhClone ⟨5, true⟩ none).owned = false := by decide
  rw [h.1] at this
  exact absurd this (by decide)

/-- C7 amended: an owned valid `NativeHandle` closes its handle exactly once
on drop and an unowned one never closes; cloning an owned valid handle
duplicates the OS handle and yields an independently owned duplicate when
duplication succeeds, while on duplication failure the clone is an unowned
alias of the original — in both cases dropping the clone and the original
closes each underlying handle exactly once, neither double-closing nor
leaking. -/
theorem c7_native_handle_ownership_amended :
    (∀ nh : NativeHandle, nh.owned = true → handleIsInvalid nh.handle = false →
      nhDropEvents nh = [.closeHandle nh.handle]) ∧
    (∀ nh : NativeHandle, nh.owned = false → nhDropEvents nh = []) ∧
    (∀ (nh : NativeHandle) (d : Int), nh.owned = true →
      handleIsInvalid nh.handle = false → handleIsInvalid d = false →
      d ≠ nh.handle →
      nhClone nh (some d) = ⟨d, true⟩ ∧
      countE (nhDropEvents (nhClone nh (some d)) ++ nhDropEvents nh)
        (.closeHandle d) = 1 ∧
      countE (nhDropEvents (nhClone nh (some d)) ++ nhDropEvents nh)
        (.closeHandle nh.handle) = 1) ∧
    (∀ nh : NativeHandle, nh.owned = true → handleIsInvalid nh.handle = false →
      nhClone nh none = ⟨nh.handle, false⟩ ∧
      countE (nhDropEvents (nhClone nh none) ++ nhDropEvents nh)
        (.closeHandle nh.handle) = 1) := by
  refine ⟨fun nh ho hv => by simp [nhDropEvents, ho, hv],
    fun nh ho => by simp [nhDropEvents, ho],
    fun nh d ho hv hdv hne => ?_,
    fun nh ho hv => ?_⟩
  · have hc : nhClone nh (some d) = ⟨d, true⟩ := by simp [nhClone, hv, hdv]
    refine ⟨hc, ?_, ?_⟩ <;>
      simp [hc, nhDropEvents, ho, hv, hdv, countE_append, countE_cons, countE_nil, hne,
        Ne.symm hne]
  · have hc : nhClone nh none = ⟨nh.handle, false⟩ := by simp [nhClone, hv]
    refine ⟨hc, ?_⟩
    simp [hc, nhDropEvents, ho, hv, countE_append, countE_cons, countE_nil]

/-- Witness for C7 amended at concrete inputs: the owned valid handle `5`
with a successful duplication producing `9`, and with a failing
duplication. -/
theorem c7_native_handle_ownership_amended_witness :
    ((true = true ∧ handleIsInvalid (5 : Int) = false ∧
        handleIsInvalid (9 : Int) = false ∧ (9 : Int) ≠ 5) ∧
      nhClone ⟨5, true⟩ (some 9) = ⟨9, true⟩ ∧
      countE (nhDropEvents (nhClone ⟨5, true⟩ (some 9)) ++ nhDropEvents ⟨5, true⟩)
        (.closeHandle 9) = 1 ∧
      countE (nhDropEvents (nhClone ⟨5, true⟩ (some 9)) ++ nhDropEvents ⟨5, true⟩)
        (.closeHandle 5) = 1) ∧
    (nhClone ⟨5, true⟩ none = ⟨5, false⟩ ∧
      countE (nhDropEvents (nhClone ⟨5, true⟩ none) ++ nhDropEvents ⟨5, true⟩)
        (.closeHandle 5) = 1) :=
  ⟨⟨⟨rfl, by decide, by decide, by decide⟩,
      c7_native_handle_ownership_amended.2.2.1 ⟨5, true⟩ 9 rfl (by decide) (by decide)
        (by decide)⟩,
    c7_native_handle_ownership_amended.2.2.2 ⟨5, true⟩ rfl (by decide)⟩

/-! ## Claim C5 -/

/-- C5 counterexample: on the D3D12 importer in its freshly constructed
state with no pending request, a call in a device-removed environment
returns an error (and flips the logging flag), so the call is not the
unconditional successful no-op the claim states. -/
theorem c5_no_pending_counterexample :
    ¬ c5Claim := by
  intro hclaim
  have h := hclaim.2 d3d12Init c5Env rfl
  have : processD d3d12Init c5Env ≠ (d3d12Init, .ok) := by decide
  exact this h

/-- C5 amended: with no pending request the Vulkan `process_pending_copy` is
an exact no-op returning ok; the D3D12 variant first runs its device-health
check, so with a healthy device it returns ok having only reset the
`device_removed_logged` flag, while with a removed device it returns an
error even though nothing is pending. -/
theorem c5_no_pending_noop_amended :
    (∀ (s : VulkanState) (env : VulkanEnv), s.pending = none →
      processV s env = (s, .ok)) ∧
    (∀ (s : D3D12State) (env : D3D12Env), s.pending = none → env.deviceOk = true →
      processD s env = ({ s with deviceRemovedLogged := false }, .ok)) ∧
    (∀ (s : D3D12State) (env : D3D12Env), env.deviceOk = false →
      (processD s env).2 = .err .deviceRemoved) := by
  refine ⟨fun s env h => by simp [processV, h],
    fun s env h hd => by simp [processD, checkDeviceState, h, hd],
    fun s env hd => ?_⟩
  by_cases hl : s.deviceRemovedLogged <;>
    simp [processD, checkDeviceState, hd, hl]

/-- Witness for C5 amended at concrete inputs: the fresh importer states
with a healthy environment, and a removed device. -/
theorem c5_no_pending_noop_amended_witness :
    (processV vulkanInit c4Env = (vulkanInit, .ok)) ∧
    (processD d3d12Init c3EnvD = ({ d3d12Init with deviceRemovedLogged := false }, .ok)) ∧
    ((processD d3d12Init c5Env).2 = .err .deviceRemoved) :=
  ⟨c5_no_pending_noop_amended.1 vulkanInit c4Env rfl,
    c5_no_pending_noop_amended.2.1 d3d12Init c3EnvD rfl rfl,
    c5_no_pending_noop_amended.2.2 d3d12Init c5Env rfl⟩

/-! ## Claim C10 -/

theorem goodCef_not_initialized {s : CefSt} (hs : goodCef s) (h0 : s.refCount = 0) :
    s.initialized = false := by
  cases hinit : s.initialized with
  | false => rfl
  | true => exact absurd (hs.mp hinit) (by omega)

theorem goodCef_initialized {s : CefSt} (hs : goodCef s) (h0 : 0 < s.refCount) :
    s.initialized = true := hs.mpr h0

/-- Lifecycle traces generated from a state whose initialized flag tracks a
positive reference count strictly alternate, starting with the event the
state expects next. -/
theorem cefRun_alternates (ops : List CefOp) (s : CefSt) (hs : goodCef s) :
    strictAlt (cefRun s ops).2 (nextExpect s) = true ∧ goodCef (cefRun s ops).1 := by
  induction ops generalizing s with
  | nil => exact ⟨rfl, hs⟩
  | cons op rest ih =>
    cases op with
    | retain ok =>
      by_cases h0 : s.refCount = 0
      · have hni : s.initialized = false := goodCef_not_initialized hs h0
        cases ok with
        | false =>
          have h2 := ih s hs
          simpa [cefRun, cefRetain, h0] using h2
        | true =>
          have h2 := ih ⟨1, true⟩ (by simp [goodCef])
          have hne : nextExpect (⟨1, true⟩ : CefSt) = .shutdownE := rfl
          rw [hne] at h2
          refine ⟨?_, by simpa [cefRun, cefRetain, h0] using h2.2⟩
          simp [cefRun, cefRetain, h0, nextExpect, hni, strictAlt]
          exact h2.1
      · have hin : s.initialized = true := goodCef_initialized hs (by omega)
        have h2 := ih { s with refCount := s.refCount + 1 }
          (by simp [goodCef, hin])
        have hne : nextExpect { s with refCount := s.refCount + 1 } = nextExpect s := by
          simp [nextExpect]
        rw [hne] at h2
        simpa [cefRun, cefRetain, h0] using h2
    | release =>
      by_cases h0 : s.refCount = 0
      · have h2 := ih s hs
        simpa [cefRun, cefRelease, h0] using h2
      · have hin : s.initialized = true := goodCef_initialized hs (by omega)
        by_cases h1 : s.refCount = 1
        · have h2 := ih ⟨0, false⟩ (by simp [goodCef])
          have hne : nextExpect (⟨0, false⟩ : CefSt) = .initE := rfl
          rw [hne] at h2
          refine ⟨?_, by simpa [cefRun, cefRelease, h0, h1, hin] using h2.2⟩
          simp [cefRun, cefRelease, h0, h1, hin, nextExpect, strictAlt]
          exact h2.1
        · have h2 := ih { s with refCount := s.refCount - 1 }
            (by simp [goodCef, hin]; omega)
          have hne : nextExpect { s with refCount := s.refCount - 1 } = nextExpect s := by
            simp [nextExpect]
          rw [hne] at h2
          have hc : ¬(s.refCount - 1 = 0 ∧ s.initialized = true) := by
            intro hc
            exact h1 (by omega)
          simpa [cefRun, cefRelease, h0, hc] using h2

/-- C10: the process-wide CEF lifecycle count never underflows — a release
at count zero is an exact no-op; a retain initializes exactly on the
successful transition from count zero to one and otherwise only increments;
a release triggers shutdown exactly when the count returns to zero with the
initialized flag set, clearing it; and over every operation sequence from
the initial state the emitted initialize/shutdown events strictly
alternate, starting with initialize. -/
theorem c10_cef_lifecycle_refcount
    (s : CefSt) (ok : Bool) (ops : List CefOp) :
    (s.refCount = 0 → cefRelease s = (s, [])) ∧
    (0 < s.refCount → cefRetain s ok = ({ s with refCount := s.refCount + 1 }, [], true)) ∧
    (s.refCount = 0 → ok = true → cefRetain s ok = (⟨1, true⟩, [.initE], true)) ∧
    (s.refCount = 0 → ok = false → cefRetain s ok = (s, [], false)) ∧
    (s.refCount = 1 → s.initialized = true → cefRelease s = (⟨0, false⟩, [.shutdownE])) ∧
    (s.refCount = 1 → s.initialized = false → cefRelease s = ({ s with refCount := 0 }, [])) ∧
    (1 < s.refCount → cefRelease s = ({ s with refCount := s.refCount - 1 }, [])) ∧
    strictAlt (cefRun cefInitSt ops).2 .initE = true := by
  refine ⟨fun h0 => by simp [cefRelease, h0],
    fun h0 => by simp [cefRetain]; omega,
    fun h0 hk => by simp [cefRetain, h0, hk],
    fun h0 hk => by simp [cefRetain, h0, hk],
    fun h1 hin => by simp [cefRelease, h1, hin],
    fun h1 hin => by simp [cefRelease, h1, hin],
    fun h1 => ?_, ?_⟩
  · have hc : ¬(s.refCount - 1 = 0 ∧ s.initialized = true) := by
      intro hc
      omega
    simp [cefRelease, hc]
    omega
  · have h := cefRun_alternates ops cefInitSt (by simp [goodCef, cefInitSt])
    simpa [nextExpect, cefInitSt] using h.1

/-- Witness for C10 at concrete inputs: a retain/retain/release/release/
retain sequence from the initial state. -/
theorem c10_cef_lifecycle_refcount_witness :
    ((0 : Nat) = 0 ∧ cefRelease cefInitSt = (cefInitSt, [])) ∧
    strictAlt (cefRun cefInitSt
      [.retain true, .retain true, .release, .release, .retain true]).2 .initE = true := by
  have h := c10_cef_lifecycle_refcount cefInitSt true
    [.retain true, .retain true, .release, .release, .retain true]
  exact ⟨⟨rfl, h.1 rfl⟩, h.2.2.2.2.2.2.2⟩

/-! ## Claim C2 (counterexample) -/

/-- C2 counterexample: in the concrete state where slot 0 still has a
submission in flight and a request is pending, the Vulkan
`process_pending_copy` with a valid destination but an unsignaled fence does
not wait and submit in the same call — it returns ok with the request
re-queued and records no GPU submission, refuting the claim as stated. -/
theorem c2_fence_wait_counterexample :
    ¬ c2Claim := by
  intro hclaim
  have h := hclaim c2State c2Env ⟨7, some 3, 100, 100⟩ rfl rfl (by decide)
  exact absurd h (by decide)

/-! ## Claim C3 (counterexample) -/

/-- C3 counterexample: on the D3D12 importer, queueing and processing the
same source handle `5` at 100 by 100 twice in a row performs a second
fresh import — the importer keeps no cache — refuting the claim as stated
for the cited D3D12 `process_pending_copy`. -/
theorem c3_d3d12_fresh_import_counterexample :
    ¬ c3ClaimD3D12 := by
  intro hclaim
  have h := hclaim d3d12Init c3EnvD ⟨5, 100, 100⟩ ⟨true⟩
  exact absurd h (by decide)

/-! ## Claim C4 -/

/-- C4: after sequentially queueing and processing the eleven distinct
source identities `1 .. 11` (each used exactly once), the Vulkan importer's
cache holds exactly ten entries; the evicted entry is the least-recently-used
one — identity `1`, the first-inserted and never reused — whose GPU image was
destroyed and duplicated handle closed exactly once, while identities
`2 .. 11` all remain cached; and no eviction happens before the cache size
exceeds the cap of ten (after each of the first ten rounds the cache holds
exactly as many entries as rounds and nothing has been destroyed). -/
theorem c4_lru_eviction_eleven_identities :
    (c4Run 11).cache.length = 10 ∧
    lookupEntry (c4Run 11).cache 1 = none ∧
    ((List.range 10).all (fun j => containsKey (c4Run 11).cache ((j : Int) + 2)) = true) ∧
    countE (c4Run 11).events (.destroyImage 1) = 1 ∧
    countE (c4Run 11).events (.closeHandle 1) = 1 ∧
    destroyCount (c4Run 11).events = 1 ∧
    importCount (c4Run 11).events = 11 ∧
    ((List.range 10).all (fun j =>
      ((c4Run (j + 1)).cache.length == j + 1) &&
        (destroyCount (c4Run (j + 1)).events == 0)) = true) := by
  decide

/-! ## Reduction lemmas for the Vulkan processing path -/

@[simp]
theorem flightSet_cache (s : VulkanState) (i : Nat) (b : Bool) :
    (s.flightSet i b).cache = s.cache := by
  unfold VulkanState.flightSet
  split <;> rfl

@[simp]
theorem flightSet_pending (s : VulkanState) (i : Nat) (b : Bool) :
    (s.flightSet i b).pending = s.pending := by
  unfold VulkanState.flightSet
  split <;> rfl

@[simp]
theorem flightSet_currentFrame (s : VulkanState) (i : Nat) (b : Bool) :
    (s.flightSet i b).currentFrame = s.currentFrame := by
  unfold VulkanState.flightSet
  split <;> rfl

@[simp]
theorem flightSet_frameCount (s : VulkanState) (i : Nat) (b : Bool) :
    (s.flightSet i b).frameCount = s.frameCount := by
  unfold VulkanState.flightSet
  split <;> rfl

@[simp]
theorem flightSet_events (s : VulkanState) (i : Nat) (b : Bool) :
    (s.flightSet i b).events = s.events := by
  unfold VulkanState.flightSet
  split <;> rfl

@[simp]
theorem flightSet_nextHandle (s : VulkanState) (i : Nat) (b : Bool) :
    (s.flightSet i b).nextHandle = s.nextHandle := by
  unfold VulkanState.flightSet
  split <;> rfl

theorem evictIfNeeded_noop (s : VulkanState) (h : s.cache.length ≤ 10) :
    evictIfNeeded s = s := by
  unfold evictIfNeeded
  have : ¬ 10 < s.cache.length := by omega
  simp [this]

@[simp]
theorem evictIfNeeded_pending (s : VulkanState) :
    (evictIfNeeded s).pending = s.pending := by
  unfold evictIfNeeded
  split
  · split
    · split <;> rfl
    · rfl
  · rfl

@[simp]
theorem evictIfNeeded_frameCount (s : VulkanState) :
    (evictIfNeeded s).frameCount = s.frameCount := by
  unfold evictIfNeeded
  split
  · split
    · split <;> rfl
    · rfl
  · rfl

@[simp]
theorem evictIfNeeded_currentFrame (s : VulkanState) :
    (evictIfNeeded s).currentFrame = s.currentFrame := by
  unfold evictIfNeeded
  split
  · split
    · split <;> rfl
    · rfl
  · rfl

@[simp]
theorem evictIfNeeded_inFlight0 (s : VulkanState) :
    (evictIfNeeded s).inFlight0 = s.inFlight0 := by
  unfold evictIfNeeded
  split
  · split
    · split <;> rfl
    · rfl
  · rfl

@[simp]
theorem evictIfNeeded_inFlight1 (s : VulkanState) :
    (evictIfNeeded s).inFlight1 = s.inFlight1 := by
  unfold evictIfNeeded
  split
  · split
    · split <;> rfl
    · rfl
  · rfl

@[simp]
theorem evictIfNeeded_nextHandle (s : VulkanState) :
    (evictIfNeeded s).nextHandle = s.nextHandle := by
  unfold evictIfNeeded
  split
  · split
    · split <;> rfl
    · rfl
  · rfl

theorem evictIfNeeded_events (s : VulkanState) :
    ∃ d, (evictIfNeeded s).events = d ++ s.events ∧
      importCount d = 0 ∧ countE d .submit = 0 ∧
      (∀ h, countE d (.dupHandle h) = 0) := by
  unfold evictIfNeeded
  split
  · split
    · split
      · exact ⟨destroyImportedV _, rfl, importCount_destroyImportedV _,
          countE_destroyImportedV_submit _, fun h => countE_destroyImportedV_dup _ h⟩
      · exact ⟨[], rfl, rfl, rfl, fun _ => rfl⟩
    · exact ⟨[], rfl, rfl, rfl, fun _ => rfl⟩
  · exact ⟨[], rfl, rfl, rfl, fun _ => rfl⟩

/-- Reduction of `process_pending_copy` on the cache-hit path when the
current slot is not in flight. -/
theorem processV_cache_hit (s : VulkanState) (env : VulkanEnv) (p : PendingVulkanCopy)
    (e : ImportedVulkanImage)
    (hp : s.pending = some p) (hdst : env.dstValid = true)
    (hfl : s.flightGet s.currentFrame = false)
    (hlook : lookupEntry s.cache p.sourceHandle = some e)
    (hw : e.width = p.width) (hh : e.height = p.height) :
    processV s env = processVFinish { s with pending := none } p env := by
  have hfl' : ({ s with pending := none } : VulkanState).flightGet
      ({ s with pending := none } : VulkanState).currentFrame = false := hfl
  have hmm : (e.width != p.width || e.height != p.height) = false := by
    simp [hw, hh]
  simp only [processV, hp, hdst, hfl']
  simp only [Bool.true_eq_false, if_false, Bool.false_eq_true, ite_false]
  simp only [processVCore, hlook, hmm]
  simp [containsKey, hlook]

/-- Reduction of `process_pending_copy` on the cache-hit path when the
current slot is in flight but its fence is found signaled by the
zero-timeout poll. -/
theorem processV_cache_hit_signaled (s : VulkanState) (env : VulkanEnv)
    (p : PendingVulkanCopy) (e : ImportedVulkanImage)
    (hp : s.pending = some p) (hdst : env.dstValid = true)
    (hfl : s.flightGet s.currentFrame = true) (hsig : env.fenceSignaled = true)
    (hlook : lookupEntry s.cache p.sourceHandle = some e)
    (hw : e.width = p.width) (hh : e.height = p.height) :
    processV s env =
      processVFinish (({ s with pending := none } : VulkanState).flightSet
        s.currentFrame false) p env := by
  have hfl' : ({ s with pending := none } : VulkanState).flightGet
      ({ s with pending := none } : VulkanState).currentFrame = true := hfl
  have hmm : (e.width != p.width || e.height != p.height) = false := by
    simp [hw, hh]
  have hlook2 : lookupEntry
      ((({ s with pending := none } : VulkanState).flightSet
        s.currentFrame false)).cache p.sourceHandle = some e := by
    rw [flightSet_cache]
    exact hlook
  simp only [processV, hp, hdst, hfl']
  simp only [Bool.true_eq_false, if_false, hsig, ite_true, ite_false]
  simp only [processVCore, hlook2, hmm]
  simp [containsKey, hlook2]
  intro hnone
  rw [hlook] at hnone
  simp at hnone

/-! ## Cache and counter lemmas -/

theorem countE_dropPendingV_import (p : PendingVulkanCopy) (k : Int) :
    countE (dropPendingV p) (.importImage k) = 0 := by
  obtain ⟨src, dh, w, ht⟩ := p
  cases dh with
  | none => rfl
  | some x =>
    simp only [dropPendingV]
    split <;> simp [countE_cons, countE_nil]

theorem countE_destroyImportedV_import (img : ImportedVulkanImage) (k : Int) :
    countE (destroyImportedV img) (.importImage k) = 0 := by
  simp [destroyImportedV, countE_cons, countE_nil]

theorem countE_evict_import (t : VulkanState) (k : Int) :
    countE (evictIfNeeded t).events (.importImage k) = countE t.events (.importImage k) := by
  unfold evictIfNeeded
  split
  · split
    · split
      · simp [countE_append, countE_destroyImportedV_import]
      · rfl
    · rfl
  · rfl

theorem countE_evict_submit (t : VulkanState) :
    countE (evictIfNeeded t).events .submit = countE t.events .submit := by
  unfold evictIfNeeded
  split
  · split
    · split
      · simp [countE_append, countE_destroyImportedV_submit]
      · rfl
    · rfl
  · rfl

theorem countE_evict_dup (t : VulkanState) (h : Int) :
    countE (evictIfNeeded t).events (.dupHandle h) = countE t.events (.dupHandle h) := by
  unfold evictIfNeeded
  split
  · split
    · split
      · simp [countE_append, countE_destroyImportedV_dup]
      · rfl
    · rfl
  · rfl

theorem touchEntry_length (c : VCache) (k : Int) (t : Nat) :
    (touchEntry c k t).length = c.length := by
  simp [touchEntry]

theorem lookupEntry_touch_self (c : VCache) (k : Int) (t : Nat) :
    lookupEntry (touchEntry c k t) k =
      (lookupEntry c k).map (fun e => { e with lastUsed := t }) := by
  induction c with
  | nil => rfl
  | cons p rest ih =>
    by_cases hk : p.1 = k
    · simp [touchEntry, lookupEntry, hk]
    · simp only [touchEntry, List.map_cons, lookupEntry, hk, if_neg, ite_false]
      simpa [touchEntry] using ih

theorem lookupEntry_cons_self (k : Int) (img : ImportedVulkanImage) (c : VCache) :
    lookupEntry ((k, img) :: c) k = some img := by
  simp [lookupEntry]

theorem countKey_nil (k : Int) : countKey [] k = 0 := rfl

theorem countKey_cons_self (k : Int) (img : ImportedVulkanImage) (c : VCache) :
    countKey ((k, img) :: c) k = countKey c k + 1 := by
  simp [countKey, List.filter_cons, Nat.add_comm]

theorem countKey_removeEntry_self (c : VCache) (k : Int) :
    countKey (removeEntry c k) k = 0 := by
  induction c with
  | nil => rfl
  | cons p rest ih =>
    by_cases hk : p.1 = k
    · simp [removeEntry, countKey, List.filter_cons, hk] at ih ⊢
    · simp [removeEntry, countKey, List.filter_cons, hk] at ih ⊢

theorem length_filter_key_map (c : VCache)
    (f : Int × ImportedVulkanImage → Int × ImportedVulkanImage)
    (hf : ∀ p, (f p).1 = p.1) (k2 : Int) :
    (List.filter (fun p => p.1 == k2) (c.map f)).length =
      (List.filter (fun p => p.1 == k2) c).length := by
  induction c with
  | nil => rfl
  | cons p rest ih =>
    simp only [List.map_cons, List.filter_cons, hf p]
    by_cases hk2 : p.1 = k2
    · simp [hk2, ih]
    · simp [hk2, ih]

theorem countKey_touch (c : VCache) (k k2 : Int) (t : Nat) :
    countKey (touchEntry c k t) k2 = countKey c k2 := by
  unfold countKey touchEntry
  apply length_filter_key_map
  intro p
  by_cases hp : p.1 = k <;> simp [hp]

theorem removeEntry_length_lt (c : VCache) (k : Int) (e : ImportedVulkanImage)
    (h : lookupEntry c k = some e) :
    (removeEntry c k).length < c.length := by
  induction c with
  | nil => simp [lookupEntry] at h
  | cons p rest ih =>
    by_cases hk : p.1 = k
    · have hle : (removeEntry rest k).length ≤ rest.length := by
        simpa [removeEntry] using List.length_filter_le _ rest
      simp only [removeEntry, List.filter_cons]
      have : (p.1 != k) = false := by simp [hk]
      rw [this]
      simpa [removeEntry] using Nat.lt_succ_of_le hle
    · have h2 : lookupEntry rest k = some e := by
        simpa [lookupEntry, hk] using h
      have := ih h2
      simp only [removeEntry, List.filter_cons]
      have hkb : (p.1 != k) = true := by simp [hk]
      rw [hkb]
      simpa [removeEntry] using Nat.succ_lt_succ this

/-- Outcome of the `process_pending_copy` tail on the frame-skip error path:
a zero destination-texture query returns an error having touched only the
`last_used` stamp and dropped the pending copy. -/
theorem processVFinish_noTexture (s : VulkanState) (pend : PendingVulkanCopy)
    (env : VulkanEnv) (ht : env.texturePtr = 0) :
    processVFinish s pend env =
      ({ s with
          cache := touchEntry s.cache pend.sourceHandle s.frameCount
          events := dropPendingV pend ++ s.events },
        .err .noDestinationTexture) := by
  simp [processVFinish, ht]

/-- Outcome of the `process_pending_copy` tail on the success path:
returns ok, records exactly one additional GPU submission, advances the
frame counter and the double-buffer slot, marks the slot in flight, and
leaves the pending slot and handle allocator untouched. -/
theorem processVFinish_success (s : VulkanState) (pend : PendingVulkanCopy)
    (env : VulkanEnv) (ht : ¬ env.texturePtr = 0) (hsub : env.submitOk = true) :
    (processVFinish s pend env).2 = .ok ∧
    countE (processVFinish s pend env).1.events .submit = countE s.events .submit + 1 ∧
    (processVFinish s pend env).1.frameCount = s.frameCount + 1 ∧
    (processVFinish s pend env).1.currentFrame = (s.currentFrame + 1) % 2 ∧
    (processVFinish s pend env).1.pending = s.pending ∧
    (processVFinish s pend env).1.nextHandle = s.nextHandle := by
  simp only [processVFinish, ht, if_false, hsub]
  refine ⟨by simp, ?_, by simp, by simp, by simp, by simp⟩
  simp [countE_append, countE_dropPendingV_submit, countE_evict_submit, countE_cons,
    Nat.add_comm]

/-- Import events recorded by the `process_pending_copy` tail: none. -/
theorem processVFinish_import_count (s : VulkanState) (pend : PendingVulkanCopy)
    (env : VulkanEnv) (k : Int) :
    countE (processVFinish s pend env).1.events (.importImage k) =
      countE s.events (.importImage k) := by
  unfold processVFinish
  split
  · simp [countE_append, countE_dropPendingV_import]
  · split
    · simp [countE_append, countE_dropPendingV_import]
    · simp [countE_append, countE_dropPendingV_import, countE_evict_import, countE_cons]

/-- Cache produced by the `process_pending_copy` tail when the cache is
within the capacity bound: only the `last_used` stamp of the processed key
changes (no eviction fires). -/
theorem processVFinish_cache_noevict (s : VulkanState) (pend : PendingVulkanCopy)
    (env : VulkanEnv) (ht : ¬ env.texturePtr = 0) (hsub : env.submitOk = true)
    (hlen : s.cache.length ≤ 10) :
    (processVFinish s pend env).1.cache =
      touchEntry s.cache pend.sourceHandle s.frameCount := by
  simp only [processVFinish, ht, if_false, hsub]
  have hnoev : ∀ t : VulkanState, t.cache.length ≤ 10 → (evictIfNeeded t).cache = t.cache := by
    intro t htl
    rw [evictIfNeeded_noop t htl]
  simp only [Bool.true_eq_false, if_false, ite_false]
  rw [hnoev]
  · simp
  · simpa [touchEntry_length] using hlen

theorem lookupEntry_removeEntry_self (c : VCache) (k : Int) :
    lookupEntry (removeEntry c k) k = none := by
  induction c with
  | nil => rfl
  | cons p rest ih =>
    by_cases hk : p.1 = k
    · simpa [removeEntry, List.filter_cons, hk] using ih
    · simp only [removeEntry, List.filter_cons] at ih ⊢
      have hkb : (p.1 != k) = true := by simp [hk]
      rw [hkb]
      simpa [lookupEntry, hk] using ih

/-- Events of the `process_pending_copy` tail on the success path within the
capacity bound: the dropped pending copy's events, after the single
submission. -/
theorem processVFinish_events_noevict (s : VulkanState) (pend : PendingVulkanCopy)
    (env : VulkanEnv) (ht : ¬ env.texturePtr = 0) (hsub : env.submitOk = true)
    (hlen : s.cache.length ≤ 10) :
    (processVFinish s pend env).1.events = dropPendingV pend ++ .submit :: s.events := by
  simp only [processVFinish, ht, if_false, hsub]
  have hnoev : ∀ t : VulkanState, t.cache.length ≤ 10 → evictIfNeeded t = t := fun t htl =>
    evictIfNeeded_noop t htl
  simp only [Bool.true_eq_false, if_false, ite_false]
  rw [hnoev]
  · simp
  · simpa [touchEntry_length] using hlen

/-- Reduction of `process_pending_copy` on the dimension-mismatch path when
the current slot is not in flight: the stale entry is removed and destroyed
and a fresh import is inserted before the tail runs. -/
theorem processV_cache_mismatch (s : VulkanState) (env : VulkanEnv)
    (p : PendingVulkanCopy) (e : ImportedVulkanImage) (hd : Int)
    (hp : s.pending = some p) (hdst : env.dstValid = true)
    (hfl : s.flightGet s.currentFrame = false)
    (hlook : lookupEntry s.cache p.sourceHandle = some e)
    (hmm : (e.width != p.width || e.height != p.height) = true)
    (hdup : p.duplicatedHandle = some hd)
    (himp : env.importOk = true) :
    processV s env =
      processVFinish
        { s with
            pending := none
            cache := (p.sourceHandle,
              (⟨hd, p.width, p.height, s.frameCount⟩ : ImportedVulkanImage)) ::
                removeEntry s.cache p.sourceHandle
            events := .importImage p.sourceHandle :: (destroyImportedV e ++ s.events) }
        { p with duplicatedHandle := none } env := by
  have hfl' : ({ s with pending := none } : VulkanState).flightGet
      ({ s with pending := none } : VulkanState).currentFrame = false := hfl
  simp only [processV, hp, hdst, hfl']
  simp only [Bool.true_eq_false, if_false, Bool.false_eq_true, ite_false]
  simp only [processVCore, hlook, hmm, if_true]
  have hnone : lookupEntry (removeEntry s.cache p.sourceHandle) p.sourceHandle = none :=
    lookupEntry_removeEntry_self _ _
  simp [containsKey, hnone, hdup, himp]

/-- Full success path of the D3D12 `process_pending_copy`: with a healthy
device, a valid destination, a valid pending handle and a successful
sequence of import, query and submission, the call blocks on the prior
fence exactly when a copy is still in flight with an uncompleted fence,
frees the previously imported resource, performs one fresh import and one
submission, and transfers ownership of the pending handle to the imported
resource. -/
theorem processD_success (s : D3D12State) (env : D3D12Env) (p : PendingD3D12Copy)
    (hp : s.pending = some p) (hdev : env.deviceOk = true) (hdst : env.dstValid = true)
    (hv : handleIsInvalid p.duplicatedHandle = false) (himp : env.importOk = true)
    (ht : ¬ env.texturePtr = 0) (hsub : env.submitOk = true) :
    (processD s env).2 = .ok ∧
    (processD s env).1.importedResource = some p.duplicatedHandle ∧
    (processD s env).1.copyInFlight = true ∧
    (processD s env).1.fenceValue = s.fenceValue + 1 ∧
    countE (processD s env).1.events .submit = countE s.events .submit + 1 ∧
    importCount (processD s env).1.events = importCount s.events + 1 ∧
    countE (processD s env).1.events .blockWait =
      countE s.events .blockWait +
        (if s.copyInFlight = true ∧ 0 < s.fenceValue ∧ env.fenceCompleted = false
          then 1 else 0) ∧
    (∀ r, s.importedResource = some r →
      countE (processD s env).1.events (.closeHandle r) =
        countE s.events (.closeHandle r) + 1) := by
  by_cases hcf : s.copyInFlight = true
  · by_cases hw : 0 < s.fenceValue ∧ env.fenceCompleted = false
    · cases hir : s.importedResource with
      | none =>
        simp [processD, checkDeviceState, waitForCopyD, hp, hdev, hdst, hcf, hw, hir,
          hv, himp, ht, hsub, countE_cons, importCount_cons, Nat.add_comm]
      | some r =>
        simp [processD, checkDeviceState, waitForCopyD, hp, hdev, hdst, hcf, hw, hir,
          hv, himp, ht, hsub, countE_cons, importCount_cons, Nat.add_comm]
    · cases hir : s.importedResource with
      | none =>
        simp [processD, checkDeviceState, waitForCopyD, hp, hdev, hdst, hcf, hw, hir,
          hv, himp, ht, hsub, countE_cons, importCount_cons, Nat.add_comm]
      | some r =>
        simp [processD, checkDeviceState, waitForCopyD, hp, hdev, hdst, hcf, hw, hir,
          hv, himp, ht, hsub, countE_cons, importCount_cons, Nat.add_comm]
  · cases hir : s.importedResource with
    | none =>
      simp [processD, checkDeviceState, waitForCopyD, hp, hdev, hdst, hcf, hir,
        hv, himp, ht, hsub, countE_cons, importCount_cons, Nat.add_comm]
    | some r =>
      simp [processD, checkDeviceState, waitForCopyD, hp, hdev, hdst, hcf, hir,
        hv, himp, ht, hsub, countE_cons, importCount_cons, Nat.add_comm]

/-! ## Claim C9 -/

/-- C9: a zero return from the host renderer's `get_driver_resource` query
is treated as a recoverable failure, never a crash: at Vulkan importer
construction a zero logical-device pointer yields the soft "unsupported"
result `none`, and during a per-frame copy a zero destination-texture
pointer yields an error return that skips only that frame's texture update —
the frame counter and in-flight flags are untouched and no submission is
recorded. -/
theorem c9_driver_resource_zero_recoverable :
    (∀ env : VulkanNewEnv, env.devicePtr = 0 → vulkanNew env = none) ∧
    (∀ (s : VulkanState) (env : VulkanEnv) (p : PendingVulkanCopy)
        (e : ImportedVulkanImage),
      s.pending = some p → env.dstValid = true →
      s.flightGet s.currentFrame = false →
      lookupEntry s.cache p.sourceHandle = some e →
      e.width = p.width → e.height = p.height →
      env.texturePtr = 0 →
      (processV s env).2 = .err .noDestinationTexture ∧
      (processV s env).1.frameCount = s.frameCount ∧
      (processV s env).1.inFlight0 = s.inFlight0 ∧
      (processV s env).1.inFlight1 = s.inFlight1 ∧
      countE (processV s env).1.events .submit = countE s.events .submit) := by
  constructor
  · intro env h
    by_cases hr : env.renderingDeviceOk <;> simp [vulkanNew, h, hr]
  · intro s env p e hp hdst hfl hlook hw hh ht
    rw [processV_cache_hit s env p e hp hdst hfl hlook hw hh,
      processVFinish_noTexture _ _ _ ht]
    refine ⟨rfl, rfl, rfl, rfl, ?_⟩
    simp [countE_append, countE_dropPendingV_submit]

/-- Witness for C9 at concrete inputs: a construction environment whose
logical-device query returns zero, and a cache-hit frame whose destination
texture query returns zero. -/
theorem c9_driver_resource_zero_recoverable_witness :
    ((0 : Int) = 0 ∧
      vulkanNew ⟨true, 0, true, 0, false, [], 1, 1, true, true, true, true⟩ = none) ∧
    ((processV
        { vulkanInit with
            pending := some ⟨5, none, 100, 100⟩
            cache := [(5, ⟨2, 100, 100, 0⟩)] }
        { dstValid := true, fenceSignaled := true, importOk := true,
          texturePtr := 0, submitOk := true }).2 = .err .noDestinationTexture ∧
      countE (processV
        { vulkanInit with
            pending := some ⟨5, none, 100, 100⟩
            cache := [(5, ⟨2, 100, 100, 0⟩)] }
        { dstValid := true, fenceSignaled := true, importOk := true,
          texturePtr := 0, submitOk := true }).1.events .submit =
        countE ({ vulkanInit with
            pending := some ⟨5, none, 100, 100⟩
            cache := [(5, ⟨2, 100, 100, 0⟩)] } : VulkanState).events .submit) := by
  have h := c9_driver_resource_zero_recoverable
  refine ⟨⟨rfl, h.1 _ rfl⟩, ?_⟩
  have h2 := h.2
    { vulkanInit with
        pending := some ⟨5, none, 100, 100⟩
        cache := [(5, ⟨2, 100, 100, 0⟩)] }
    { dstValid := true, fenceSignaled := true, importOk := true,
      texturePtr := 0, submitOk := true }
    ⟨5, none, 100, 100⟩ ⟨2, 100, 100, 0⟩ rfl rfl rfl rfl rfl rfl rfl
  exact ⟨h2.1, h2.2.2.2.2⟩

theorem destroyCount_append (a b : List ResEvent) :
    destroyCount (a ++ b) = destroyCount a + destroyCount b := by
  simp [destroyCount, List.filter_append]

theorem destroyCount_cons (x : ResEvent) (l : List ResEvent) :
    destroyCount (x :: l) =
      (match x with | .destroyImage _ => 1 | _ => 0) + destroyCount l := by
  cases x <;> simp [destroyCount, Nat.add_comm]

theorem destroyCount_dropPendingV (p : PendingVulkanCopy) :
    destroyCount (dropPendingV p) = 0 := by
  obtain ⟨src, dh, w, ht⟩ := p
  cases dh with
  | none => rfl
  | some x =>
    simp only [dropPendingV]
    split <;> simp [destroyCount_cons, destroyCount]

/-! ## Claim C3 (amended) -/

/-- C3 amended: for the Vulkan importer the claim holds as stated — a second
consecutive request with the same source identity and identical dimensions
is served from the cache with no fresh import and no destruction, only the
`last_used` stamp moving to the current frame; on a dimension mismatch the
stale entry is destroyed (GPU image freed and duplicated handle closed
exactly once) and a fresh import replaces it, leaving exactly one cache
entry for that key.  The D3D12 importer, however, keeps no cache: every
processed request performs a fresh import, freeing the previous imported
resource (closing its duplicated handle) in the same call. -/
theorem c3_cache_hit_and_invalidation_amended :
    (∀ (s : VulkanState) (env : VulkanEnv) (p : PendingVulkanCopy)
        (e : ImportedVulkanImage),
      s.pending = some p → env.dstValid = true →
      s.flightGet s.currentFrame = false →
      lookupEntry s.cache p.sourceHandle = some e →
      e.width = p.width → e.height = p.height →
      ¬ env.texturePtr = 0 → env.submitOk = true → s.cache.length ≤ 10 →
      (processV s env).2 = .ok ∧
      importCount (processV s env).1.events = importCount s.events ∧
      destroyCount (processV s env).1.events = destroyCount s.events ∧
      lookupEntry (processV s env).1.cache p.sourceHandle =
        some { e with lastUsed := s.frameCount } ∧
      (processV s env).1.cache.length = s.cache.length) ∧
    (∀ (s : VulkanState) (env : VulkanEnv) (p : PendingVulkanCopy)
        (e : ImportedVulkanImage) (hd : Int),
      s.pending = some p → env.dstValid = true →
      s.flightGet s.currentFrame = false →
      lookupEntry s.cache p.sourceHandle = some e →
      (e.width != p.width || e.height != p.height) = true →
      p.duplicatedHandle = some hd → env.importOk = true →
      ¬ env.texturePtr = 0 → env.submitOk = true → s.cache.length ≤ 10 →
      (processV s env).2 = .ok ∧
      countE (processV s env).1.events (.destroyImage e.duplicatedHandle) =
        countE s.events (.destroyImage e.duplicatedHandle) + 1 ∧
      countE (processV s env).1.events (.closeHandle e.duplicatedHandle) =
        countE s.events (.closeHandle e.duplicatedHandle) + 1 ∧
      importCount (processV s env).1.events = importCount s.events + 1 ∧
      lookupEntry (processV s env).1.cache p.sourceHandle =
        some ⟨hd, p.width, p.height, s.frameCount⟩ ∧
      countKey (processV s env).1.cache p.sourceHandle = 1) ∧
    (∀ (s : D3D12State) (env : D3D12Env) (p : PendingD3D12Copy),
      s.pending = some p → env.deviceOk = true → env.dstValid = true →
      handleIsInvalid p.duplicatedHandle = false → env.importOk = true →
      ¬ env.texturePtr = 0 → env.submitOk = true →
      (processD s env).2 = .ok ∧
      importCount (processD s env).1.events = importCount s.events + 1 ∧
      (processD s env).1.importedResource = some p.duplicatedHandle ∧
      (∀ r, s.importedResource = some r →
        countE (processD s env).1.events (.closeHandle r) =
          countE s.events (.closeHandle r) + 1)) := by
  refine ⟨?_, ?_, ?_⟩
  · intro s env p e hp hdst hfl hlook hw hh ht hsub hlen
    rw [processV_cache_hit s env p e hp hdst hfl hlook hw hh]
    have hok := processVFinish_success { s with pending := none } p env ht hsub
    have hev := processVFinish_events_noevict { s with pending := none } p env ht hsub hlen
    have hca := processVFinish_cache_noevict { s with pending := none } p env ht hsub hlen
    refine ⟨hok.1, ?_, ?_, ?_, ?_⟩
    · rw [hev]
      simp [importCount_append, importCount_dropPendingV, importCount_cons]
    · rw [hev]
      simp [destroyCount_append, destroyCount_dropPendingV, destroyCount_cons]
    · rw [hca]
      have := lookupEntry_touch_self s.cache p.sourceHandle s.frameCount
      rw [show ({ s with pending := none } : VulkanState).cache = s.cache from rfl,
        show ({ s with pending := none } : VulkanState).frameCount = s.frameCount from rfl,
        this, hlook]
      rfl
    · rw [hca]
      simp [touchEntry_length]
  · intro s env p e hd hp hdst hfl hlook hmm hdup himp ht hsub hlen
    rw [processV_cache_mismatch s env p e hd hp hdst hfl hlook hmm hdup himp]
    have hrem : (removeEntry s.cache p.sourceHandle).length < s.cache.length :=
      removeEntry_length_lt s.cache p.sourceHandle e hlook
    have hlen2 : ((p.sourceHandle,
        (⟨hd, p.width, p.height, s.frameCount⟩ : ImportedVulkanImage)) ::
          removeEntry s.cache p.sourceHandle).length ≤ 10 := by
      simp only [List.length_cons]
      omega
    have hok := processVFinish_success
      { s with
          pending := none
          cache := (p.sourceHandle,
            (⟨hd, p.width, p.height, s.frameCount⟩ : ImportedVulkanImage)) ::
              removeEntry s.cache p.sourceHandle
          events := .importImage p.sourceHandle :: (destroyImportedV e ++ s.events) }
      { p with duplicatedHandle := none } env ht hsub
    have hev := processVFinish_events_noevict
      { s with
          pending := none
          cache := (p.sourceHandle,
            (⟨hd, p.width, p.height, s.frameCount⟩ : ImportedVulkanImage)) ::
              removeEntry s.cache p.sourceHandle
          events := .importImage p.sourceHandle :: (destroyImportedV e ++ s.events) }
      { p with duplicatedHandle := none } env ht hsub hlen2
    have hca := processVFinish_cache_noevict
      { s with
          pending := none
          cache := (p.sourceHandle,
            (⟨hd, p.width, p.height, s.frameCount⟩ : ImportedVulkanImage)) ::
              removeEntry s.cache p.sourceHandle
          events := .importImage p.sourceHandle :: (destroyImportedV e ++ s.events) }
      { p with duplicatedHandle := none } env ht hsub hlen2
    have hdropnil : dropPendingV { p with duplicatedHandle := none } = [] := rfl
    refine ⟨hok.1, ?_, ?_, ?_, ?_, ?_⟩
    · rw [hev, hdropnil]
      simp [countE_append, countE_cons, destroyImportedV, Nat.add_comm]
    · rw [hev, hdropnil]
      simp [countE_append, countE_cons, destroyImportedV, Nat.add_comm]
    · rw [hev, hdropnil]
      simp [importCount_append, importCount_cons, destroyImportedV, Nat.add_comm]
    · rw [hca]
      have := lookupEntry_touch_self
        ((p.sourceHandle,
          (⟨hd, p.width, p.height, s.frameCount⟩ : ImportedVulkanImage)) ::
            removeEntry s.cache p.sourceHandle)
        p.sourceHandle s.frameCount
      rw [show (({ s with
          pending := none
          cache := (p.sourceHandle,
            (⟨hd, p.width, p.height, s.frameCount⟩ : ImportedVulkanImage)) ::
              removeEntry s.cache p.sourceHandle
          events := .importImage p.sourceHandle ::
            (destroyImportedV e ++ s.events) } : VulkanState)).cache =
          (p.sourceHandle,
            (⟨hd, p.width, p.height, s.frameCount⟩ : ImportedVulkanImage)) ::
              removeEntry s.cache p.sourceHandle from rfl] at hca ⊢
      rw [this, lookupEntry_cons_self]
      rfl
    · rw [hca, countKey_touch, countKey_cons_self, countKey_removeEntry_self]
  · intro s env p hp hdev hdst hv himp ht hsub
    have h := processD_success s env p hp hdev hdst hv himp ht hsub
    exact ⟨h.1, h.2.2.2.2.2.1, h.2.1, h.2.2.2.2.2.2.2⟩

/-- Witness for C3 amended at concrete inputs: a cache hit for identity `5`
at 100 by 100, a dimension mismatch for the same identity, and a repeated
D3D12 request. -/
theorem c3_cache_hit_and_invalidation_amended_witness :
    (lookupEntry ([(5, ⟨2, 100, 100, 3⟩)] : VCache) 5 = some ⟨2, 100, 100, 3⟩ ∧
      (processV { vulkanInit with
          pending := some ⟨5, none, 100, 100⟩
          cache := [(5, ⟨2, 100, 100, 3⟩)]
          frameCount := 7 } c4Env).2 = .ok ∧
      importCount (processV { vulkanInit with
          pending := some ⟨5, none, 100, 100⟩
          cache := [(5, ⟨2, 100, 100, 3⟩)]
          frameCount := 7 } c4Env).1.events = 0 ∧
      lookupEntry (processV { vulkanInit with
          pending := some ⟨5, none, 100, 100⟩
          cache := [(5, ⟨2, 100, 100, 3⟩)]
          frameCount := 7 } c4Env).1.cache 5 = some ⟨2, 100, 100, 7⟩) ∧
    ((processV { vulkanInit with
          pending := some ⟨5, some 9, 200, 150⟩
          cache := [(5, ⟨2, 100, 100, 3⟩)]
          nextHandle := 10 } c4Env).2 = .ok ∧
      countE (processV { vulkanInit with
          pending := some ⟨5, some 9, 200, 150⟩
          cache := [(5, ⟨2, 100, 100, 3⟩)]
          nextHandle := 10 } c4Env).1.events (.closeHandle 2) = 1 ∧
      lookupEntry (processV { vulkanInit with
          pending := some ⟨5, some 9, 200, 150⟩
          cache := [(5, ⟨2, 100, 100, 3⟩)]
          nextHandle := 10 } c4Env).1.cache 5 = some ⟨9, 200, 150, 0⟩ ∧
      countKey (processV { vulkanInit with
          pending := some ⟨5, some 9, 200, 150⟩
          cache := [(5, ⟨2, 100, 100, 3⟩)]
          nextHandle := 10 } c4Env).1.cache 5 = 1) ∧
    ((processD { d3d12Init with
          pending := some ⟨4, 100, 100⟩
          importedResource := some 2
          copyInFlight := true
          fenceValue := 1 } c3EnvD).2 = .ok ∧
      importCount (processD { d3d12Init with
          pending := some ⟨4, 100, 100⟩
          importedResource := some 2
          copyInFlight := true
          fenceValue := 1 } c3EnvD).1.events = 1 ∧
      countE (processD { d3d12Init with
          pending := some ⟨4, 100, 100⟩
          importedResource := some 2
          copyInFlight := true
          fenceValue := 1 } c3EnvD).1.events (.closeHandle 2) = 1) := by
  have h := c3_cache_hit_and_invalidation_amended
  refine ⟨⟨rfl, ?_⟩, ?_, ?_⟩
  · have ha := h.1
      { vulkanInit with
          pending := some ⟨5, none, 100, 100⟩
          cache := [(5, ⟨2, 100, 100, 3⟩)]
          frameCount := 7 } c4Env
      ⟨5, none, 100, 100⟩ ⟨2, 100, 100, 3⟩
      rfl rfl rfl rfl rfl rfl (by decide) rfl (by decide)
    exact ⟨ha.1, by simpa using ha.2.1, by simpa using ha.2.2.2.1⟩
  · have hb := h.2.1
      { vulkanInit with
          pending := some ⟨5, some 9, 200, 150⟩
          cache := [(5, ⟨2, 100, 100, 3⟩)]
          nextHandle := 10 } c4Env
      ⟨5, some 9, 200, 150⟩ ⟨2, 100, 100, 3⟩ 9
      rfl rfl rfl rfl (by decide) rfl rfl (by decide) rfl (by decide)
    exact ⟨hb.1, by simpa using hb.2.2.1, by simpa using hb.2.2.2.2.1,
      by simpa using hb.2.2.2.2.2⟩
  · have hc := h.2.2
      { d3d12Init with
          pending := some ⟨4, 100, 100⟩
          importedResource := some 2
          copyInFlight := true
          fenceValue := 1 } c3EnvD
      ⟨4, 100, 100⟩
      rfl rfl rfl (by decide) rfl (by decide) rfl
    exact ⟨hc.1, by simpa using hc.2.1, by simpa using hc.2.2.2 2 rfl⟩

/-! ## Claim C2 (amended) -/

/-- C2 amended: the two importers reuse a busy command slot differently.
The D3D12 `process_pending_copy` behaves as the claim states: with a prior
submission still in flight it performs a bounded blocking wait on that
submission's fence (at most one prior frame's work) and then imports and
submits the pending request in the same call.  The Vulkan variant instead
polls the slot's fence with a zero timeout: if the prior submission has not
completed it re-queues the pending request and returns ok without importing
or submitting anything, deferring the work to a later frame; it proceeds
to import and submit in the same call only when the poll finds the fence
signaled. -/
theorem c2_slot_reuse_policy_amended :
    (∀ (s : VulkanState) (env : VulkanEnv) (p : PendingVulkanCopy),
      s.pending = some p → env.dstValid = true →
      s.flightGet s.currentFrame = true → env.fenceSignaled = false →
      processV s env = (s, .ok)) ∧
    (∀ (s : VulkanState) (env : VulkanEnv) (p : PendingVulkanCopy)
        (e : ImportedVulkanImage),
      s.pending = some p → env.dstValid = true →
      s.flightGet s.currentFrame = true → env.fenceSignaled = true →
      lookupEntry s.cache p.sourceHandle = some e →
      e.width = p.width → e.height = p.height →
      ¬ env.texturePtr = 0 → env.submitOk = true →
      (processV s env).2 = .ok ∧
      countE (processV s env).1.events .submit = countE s.events .submit + 1) ∧
    (∀ (s : D3D12State) (env : D3D12Env) (p : PendingD3D12Copy),
      s.pending = some p → env.deviceOk = true → env.dstValid = true →
      s.copyInFlight = true → 0 < s.fenceValue → env.fenceCompleted = false →
      handleIsInvalid p.duplicatedHandle = false → env.importOk = true →
      ¬ env.texturePtr = 0 → env.submitOk = true →
      (processD s env).2 = .ok ∧
      countE (processD s env).1.events .blockWait = countE s.events .blockWait + 1 ∧
      countE (processD s env).1.events .submit = countE s.events .submit + 1) := by
  refine ⟨?_, ?_, ?_⟩
  · intro s env p hp hdst hfl hsig
    have hfl' : ({ s with pending := none } : VulkanState).flightGet
        ({ s with pending := none } : VulkanState).currentFrame = true := hfl
    simp only [processV, hp, hdst, hfl', hsig]
    simp only [Bool.true_eq_false, if_false, ite_true, ite_false]
    rw [← hp]
  · intro s env p e hp hdst hfl hsig hlook hw hh ht hsub
    rw [processV_cache_hit_signaled s env p e hp hdst hfl hsig hlook hw hh]
    have hok := processVFinish_success
      ((({ s with pending := none } : VulkanState).flightSet s.currentFrame false))
      p env ht hsub
    exact ⟨hok.1, by simpa using hok.2.1⟩
  · intro s env p hp hdev hdst hcf hfv hfc hv himp ht hsub
    have h := processD_success s env p hp hdev hdst hv himp ht hsub
    refine ⟨h.1, ?_, h.2.2.2.2.1⟩
    have hcond : (s.copyInFlight = true ∧ 0 < s.fenceValue ∧ env.fenceCompleted = false) := by
      exact ⟨hcf, hfv, hfc⟩
    have hb := h.2.2.2.2.2.2.1
    rw [if_pos hcond] at hb
    exact hb

/-- Witness for C2 amended at concrete inputs: the deferring Vulkan state of
the counterexample, the same state once its fence is signaled, and a D3D12
state with a copy in flight. -/
theorem c2_slot_reuse_policy_amended_witness :
    (processV c2State c2Env = (c2State, .ok)) ∧
    ((processV
        { c2State with
            cache := [(7, ⟨2, 100, 100, 0⟩)]
            pending := some ⟨7, none, 100, 100⟩ }
        { c2Env with fenceSignaled := true }).2 = .ok ∧
      countE (processV
        { c2State with
            cache := [(7, ⟨2, 100, 100, 0⟩)]
            pending := some ⟨7, none, 100, 100⟩ }
        { c2Env with fenceSignaled := true }).1.events .submit = 1) ∧
    ((processD
        { d3d12Init with
            pending := some ⟨4, 100, 100⟩
            copyInFlight := true
            fenceValue := 1 }
        { deviceOk := true, dstValid := true, fenceCompleted := false,
          importOk := true, texturePtr := 1, submitOk := true }).2 = .ok ∧
      countE (processD
        { d3d12Init with
            pending := some ⟨4, 100, 100⟩
            copyInFlight := true
            fenceValue := 1 }
        { deviceOk := true, dstValid := true, fenceCompleted := false,
          importOk := true, texturePtr := 1, submitOk := true }).1.events .blockWait = 1 ∧
      countE (processD
        { d3d12Init with
            pending := some ⟨4, 100, 100⟩
            copyInFlight := true
            fenceValue := 1 }
        { deviceOk := true, dstValid := true, fenceCompleted := false,
          importOk := true, texturePtr := 1, submitOk := true }).1.events .submit = 1) := by
  have h := c2_slot_reuse_policy_amended
  refine ⟨h.1 c2State c2Env ⟨7, some 3, 100, 100⟩ rfl rfl (by decide) rfl, ?_, ?_⟩
  · have hb := h.2.1
      { c2State with
          cache := [(7, ⟨2, 100, 100, 0⟩)]
          pending := some ⟨7, none, 100, 100⟩ }
      { c2Env with fenceSignaled := true }
      ⟨7, none, 100, 100⟩ ⟨2, 100, 100, 0⟩
      rfl rfl (by decide) rfl rfl rfl rfl (by decide) rfl
    exact ⟨hb.1, by simpa using hb.2⟩
  · have hc := h.2.2
      { d3d12Init with
          pending := some ⟨4, 100, 100⟩
          copyInFlight := true
          fenceValue := 1 }
      { deviceOk := true, dstValid := true, fenceCompleted := false,
        importOk := true, texturePtr := 1, submitOk := true }
      ⟨4, 100, 100⟩
      rfl rfl rfl rfl (by decide) rfl (by decide) rfl (by decide) rfl
    exact ⟨hc.1, by simpa using hc.2.1, by simpa using hc.2.2⟩

/-! ## Claim C1: ledger composition -/

theorem HandleLedger.refl_self (n : Int) (p : Option Int) (hwf : pendWF p n) :
    HandleLedger n n p p [] := by
  refine ⟨Int.le_refl n, hwf, fun h hh _ => hh, rfl, rfl, ?_, ?_, ?_⟩
  · intro h
    rw [countE_nil, if_neg]
    rintro ⟨h1, h2⟩
    omega
  · intro h hge
    rw [countE_nil, if_neg]
    rintro ⟨h1, _⟩
    omega
  · intro h _
    rw [countE_nil, if_neg]
    rintro ⟨h1, h2⟩
    exact h2 h1

theorem HandleLedger.trans {n0 n1 n2 : Int} {p0 p1 p2 : Option Int}
    {d1 d2 : List ResEvent}
    (a : HandleLedger n0 n1 p0 p1 d1) (b : HandleLedger n1 n2 p1 p2 d2) :
    HandleLedger n0 n2 p0 p2 (d2 ++ d1) := by
  have hm1 := a.mono
  have hm2 := b.mono
  refine ⟨le_trans a.mono b.mono, b.wf, ?_, ?_, ?_, ?_, ?_, ?_⟩
  · intro h hh hlt
    exact a.persist h (b.persist h hh (lt_of_lt_of_le hlt a.mono)) hlt
  · rw [importCount_append, a.noImports, b.noImports]
  · rw [countE_append, a.noSubmits, b.noSubmits]
  · intro h
    rw [countE_append, a.dups h, b.dups h]
    split_ifs <;> omega
  · intro h hge
    by_cases h2 : h < n1
    · rw [countE_append, a.closesHigh h hge, b.closesLow h h2]
      have hlt2 : h < n2 := lt_of_lt_of_le h2 b.mono
      by_cases hp1 : p1 = some h
      · by_cases hp2 : p2 = some h
        · simp [hp1, hp2, h2, hlt2]
        · simp [hp1, hp2, h2, hlt2]
      · have hp2 : p2 ≠ some h := fun hc => hp1 (b.persist h hc h2)
        simp [hp1, hp2, h2, hlt2]
    · have h2' : n1 ≤ h := by omega
      rw [countE_append, a.closesHigh h hge, b.closesHigh h h2']
      have hno : ¬(h < n1 ∧ p1 ≠ some h) := fun hc => h2 hc.1
      rw [if_neg hno]
      omega
  · intro h hlt
    have hlt1 : h < n1 := lt_of_lt_of_le hlt a.mono
    rw [countE_append, a.closesLow h hlt, b.closesLow h hlt1]
    by_cases hp0 : p0 = some h
    · by_cases hp1 : p1 = some h
      · simp [hp0, hp1]
      · have hp2 : p2 ≠ some h := fun hc => hp1 (b.persist h hc hlt1)
        simp [hp0, hp1, hp2]
    · have hp1 : p1 ≠ some h := fun hc => hp0 (a.persist h hc hlt)
      have hp2 : p2 ≠ some h := fun hc => hp1 (b.persist h hc hlt1)
      simp [hp0, hp1, hp2]

theorem countE_dropOptV_dup (p : Option PendingVulkanCopy) (h : Int) :
    countE (dropOptV p) (.dupHandle h) = 0 := by
  cases p with
  | none => rfl
  | some q => exact countE_dropPendingV_dup q h

theorem countE_dropOptV_submit (p : Option PendingVulkanCopy) :
    countE (dropOptV p) .submit = 0 := by
  cases p with
  | none => rfl
  | some q => exact countE_dropPendingV_submit q

theorem importCount_dropOptV (p : Option PendingVulkanCopy) :
    importCount (dropOptV p) = 0 := by
  cases p with
  | none => rfl
  | some q => exact importCount_dropPendingV q

theorem countE_dropOptV_close (p : Option PendingVulkanCopy) (h : Int)
    (hwf : ∀ x, pendHandleOpt p = some x → 0 < x) :
    countE (dropOptV p) (.closeHandle h) = if pendHandleOpt p = some h then 1 else 0 := by
  cases p with
  | none => simp [dropOptV, pendHandleOpt, countE_nil]
  | some q =>
    obtain ⟨src, dh, w, ht⟩ := q
    cases dh with
    | none => simp [dropOptV, dropPendingV, pendHandleOpt, countE_nil]
    | some x =>
      have hx : 0 < x := hwf x (by simp [pendHandleOpt])
      have hinv : handleIsInvalid x = false := handleIsInvalid_of_pos hx
      simp only [dropOptV, dropPendingV, pendHandleOpt, hinv, Bool.false_eq_true, ite_false]
      rw [countE_cons, countE_nil]
      by_cases hxh : x = h
      · simp [hxh]
      · have : ResEvent.closeHandle x ≠ ResEvent.closeHandle h := by
          simpa using hxh
        simp [this, hxh]

theorem countE_dropOptD_dup (p : Option PendingD3D12Copy) (h : Int) :
    countE (dropOptD p) (.dupHandle h) = 0 := by
  cases p with
  | none => rfl
  | some q => exact countE_dropPendingD_dup q h

theorem countE_dropOptD_submit (p : Option PendingD3D12Copy) :
    countE (dropOptD p) .submit = 0 := by
  cases p with
  | none => rfl
  | some q => exact countE_dropPendingD_submit q

theorem importCount_dropOptD (p : Option PendingD3D12Copy) :
    importCount (dropOptD p) = 0 := by
  cases p with
  | none => rfl
  | some q => exact importCount_dropPendingD q

theorem countE_dropOptD_close (p : Option PendingD3D12Copy) (h : Int)
    (hwf : ∀ x, pendHandleOptD p = some x → 0 < x) :
    countE (dropOptD p) (.closeHandle h) = if pendHandleOptD p = some h then 1 else 0 := by
  cases p with
  | none => simp [dropOptD, pendHandleOptD, countE_nil]
  | some q =>
    have hx : 0 < q.duplicatedHandle := hwf q.duplicatedHandle (by simp [pendHandleOptD])
    have hinv : handleIsInvalid q.duplicatedHandle = false := handleIsInvalid_of_pos hx
    simp only [dropOptD, dropPendingD, pendHandleOptD, hinv, Bool.false_eq_true, ite_false]
    rw [countE_cons, countE_nil]
    by_cases hxh : q.duplicatedHandle = h
    · simp [hxh]
    · have : ResEvent.closeHandle q.duplicatedHandle ≠ ResEvent.closeHandle h := by
        simpa using hxh
      simp [this, hxh]

/-- Ledger of a duplicating `queue_copy` step: the old pending handle (if
any) is closed once, one fresh handle `n` is duplicated and becomes the new
pending handle. -/
theorem dupStep_ledger (n : Int) (p0 : Option PendingVulkanCopy)
    (hpos : 0 < n) (hwf' : ∀ x, pendHandleOpt p0 = some x → 0 < x)
    (hwfb : ∀ x, pendHandleOpt p0 = some x → x < n) :
    HandleLedger n (n + 1) (pendHandleOpt p0) (some n)
      (dropOptV p0 ++ [.dupHandle n]) := by
  refine ⟨by omega, ?_, ?_, ?_, ?_, ?_, ?_, ?_⟩
  · intro x hx
    cases hx
    exact ⟨hpos, by omega⟩
  · intro x hx hlt
    cases hx
    omega
  · rw [importCount_append, importCount_dropOptV]
    rfl
  · rw [countE_append, countE_dropOptV_submit]
    rfl
  · intro h
    rw [countE_append, countE_dropOptV_dup, countE_cons, countE_nil]
    simp only [ResEvent.dupHandle.injEq]
    split_ifs <;> omega
  · intro h hge
    rw [countE_append, countE_dropOptV_close p0 h hwf', countE_cons, countE_nil]
    rw [if_neg (show ¬(ResEvent.dupHandle n = ResEvent.closeHandle h) by simp)]
    have hpn : ¬(pendHandleOpt p0 = some h) := fun hc => by
      have := hwfb h hc
      omega
    rw [if_neg hpn, if_neg]
    rintro ⟨ha, hb⟩
    exact hb (congrArg some (by omega))
  · intro h hlt
    rw [countE_append, countE_dropOptV_close p0 h hwf', countE_cons, countE_nil]
    rw [if_neg (show ¬(ResEvent.dupHandle n = ResEvent.closeHandle h) by simp)]
    have hne : (some n : Option Int) ≠ some h := fun hc => by
      injection hc with hc2
      omega
    by_cases hp0 : pendHandleOpt p0 = some h
    · rw [if_pos hp0, if_pos ⟨hp0, hne⟩]
    · rw [if_neg hp0, if_neg]
      rintro ⟨ha, _⟩
      exact hp0 ha

/-- Ledger of a non-duplicating `queue_copy` step (cache hit at queue time):
the old pending handle (if any) is closed once and no handle is
duplicated. -/
theorem nodupStep_ledger (n : Int) (p0 : Option PendingVulkanCopy)
    (hwf' : ∀ x, pendHandleOpt p0 = some x → 0 < x)
    (hwfb : ∀ x, pendHandleOpt p0 = some x → x < n) :
    HandleLedger n n (pendHandleOpt p0) none (dropOptV p0) := by
  refine ⟨le_refl n, ?_, ?_, importCount_dropOptV _, countE_dropOptV_submit _, ?_, ?_, ?_⟩
  · intro x hx
    cases hx
  · intro x hx
    cases hx
  · intro h
    rw [countE_dropOptV_dup, if_neg]
    rintro ⟨ha, hb⟩
    omega
  · intro h hge
    rw [countE_dropOptV_close p0 h hwf']
    have hpn : ¬(pendHandleOpt p0 = some h) := fun hc => by
      have := hwfb h hc
      omega
    rw [if_neg hpn, if_neg]
    rintro ⟨ha, _⟩
    omega
  · intro h hlt
    rw [countE_dropOptV_close p0 h hwf']
    by_cases hp0 : pendHandleOpt p0 = some h
    · rw [if_pos hp0, if_pos ⟨hp0, by simp⟩]
    · rw [if_neg hp0, if_neg]
      rintro ⟨ha, _⟩
      exact hp0 ha

/-- Ledger of a D3D12 `queue_copy` step, which always duplicates. -/
theorem dupStepD_ledger (n : Int) (p0 : Option PendingD3D12Copy)
    (hpos : 0 < n) (hwf' : ∀ x, pendHandleOptD p0 = some x → 0 < x)
    (hwfb : ∀ x, pendHandleOptD p0 = some x → x < n) :
    HandleLedger n (n + 1) (pendHandleOptD p0) (some n)
      (dropOptD p0 ++ [.dupHandle n]) := by
  refine ⟨by omega, ?_, ?_, ?_, ?_, ?_, ?_, ?_⟩
  · intro x hx
    cases hx
    exact ⟨hpos, by omega⟩
  · intro x hx hlt
    cases hx
    omega
  · rw [importCount_append, importCount_dropOptD]
    rfl
  · rw [countE_append, countE_dropOptD_submit]
    rfl
  · intro h
    rw [countE_append, countE_dropOptD_dup, countE_cons, countE_nil]
    simp only [ResEvent.dupHandle.injEq]
    split_ifs <;> omega
  · intro h hge
    rw [countE_append, countE_dropOptD_close p0 h hwf', countE_cons, countE_nil]
    rw [if_neg (show ¬(ResEvent.dupHandle n = ResEvent.closeHandle h) by simp)]
    have hpn : ¬(pendHandleOptD p0 = some h) := fun hc => by
      have := hwfb h hc
      omega
    rw [if_neg hpn, if_neg]
    rintro ⟨ha, hb⟩
    exact hb (congrArg some (by omega))
  · intro h hlt
    rw [countE_append, countE_dropOptD_close p0 h hwf', countE_cons, countE_nil]
    rw [if_neg (show ¬(ResEvent.dupHandle n = ResEvent.closeHandle h) by simp)]
    have hne : (some n : Option Int) ≠ some h := fun hc => by
      injection hc with hc2
      omega
    by_cases hp0 : pendHandleOptD p0 = some h
    · rw [if_pos hp0, if_pos ⟨hp0, hne⟩]
    · rw [if_neg hp0, if_neg]
      rintro ⟨ha, _⟩
      exact hp0 ha

/-- One Vulkan `queue_copy` call moves the importer state along a
well-formed handle ledger and never touches the cache. -/
theorem queueCopyV_ledger (s : VulkanState) (info : PaintInfo) (env : QueueEnv)
    (hpos : 0 < s.nextHandle) (hwf : pendWF (pendingHandleV s) s.nextHandle) :
    ∃ d, (queueCopyV s info env).1.events = d ++ s.events ∧
      HandleLedger s.nextHandle (queueCopyV s info env).1.nextHandle
        (pendingHandleV s) (pendingHandleV (queueCopyV s info env).1) d ∧
      (queueCopyV s info env).1.cache = s.cache := by
  have hwf' : ∀ x, pendHandleOpt s.pending = some x → 0 < x := fun x hx =>
    (hwf x hx).1
  have hwfb : ∀ x, pendHandleOpt s.pending = some x → x < s.nextHandle := fun x hx =>
    (hwf x hx).2
  by_cases h1 : handleIsInvalid info.sharedTextureHandle
  · have hred : queueCopyV s info env = (s, .err .invalidSourceHandle) := by
      simp [queueCopyV, h1]
    rw [hred]
    exact ⟨[], rfl, HandleLedger.refl_self _ _ hwf, rfl⟩
  · by_cases h2 : info.width = 0 ∨ info.height = 0
    · have hred : queueCopyV s info env = (s, .err .invalidSourceDimensions) := by
        simp [queueCopyV, h1, h2]
      rw [hred]
      exact ⟨[], rfl, HandleLedger.refl_self _ _ hwf, rfl⟩
    · by_cases h3 : needsImportB s.cache info.sharedTextureHandle info.width info.height
      · by_cases h4 : env.dupOk
        · have hred : queueCopyV s info env =
              ({ s with
                  nextHandle := s.nextHandle + 1
                  pending := some ⟨info.sharedTextureHandle, some s.nextHandle,
                    info.width, info.height⟩
                  events := dropOptV s.pending ++ .dupHandle s.nextHandle :: s.events },
                .ok) := by
            simp [queueCopyV, h1, h2, h3, h4]
          rw [hred]
          refine ⟨dropOptV s.pending ++ [.dupHandle s.nextHandle], by simp, ?_, rfl⟩
          exact dupStep_ledger s.nextHandle s.pending hpos hwf' hwfb
        · have h4f : env.dupOk = false := by simpa using h4
          have hred : queueCopyV s info env = (s, .err .duplicateHandleFailed) := by
            simp [queueCopyV, h1, h2, h3, h4f]
          rw [hred]
          exact ⟨[], rfl, HandleLedger.refl_self _ _ hwf, rfl⟩
      · have h3f : needsImportB s.cache info.sharedTextureHandle info.width info.height
            = false := by simpa using h3
        have hred : queueCopyV s info env =
            ({ s with
                pending := some ⟨info.sharedTextureHandle, none, info.width, info.height⟩
                events := dropOptV s.pending ++ s.events },
              .ok) := by
          simp [queueCopyV, h1, h2, h3f]
        rw [hred]
        refine ⟨dropOptV s.pending, rfl, ?_, rfl⟩
        exact nodupStep_ledger s.nextHandle s.pending hwf' hwfb

/-- One D3D12 `queue_copy` call moves the importer state along a
well-formed handle ledger. -/
theorem queueCopyD_ledger (s : D3D12State) (info : PaintInfo) (env : QueueEnv)
    (hpos : 0 < s.nextHandle) (hwf : pendWF (pendingHandleD s) s.nextHandle) :
    ∃ d, (queueCopyD s info env).1.events = d ++ s.events ∧
      HandleLedger s.nextHandle (queueCopyD s info env).1.nextHandle
        (pendingHandleD s) (pendingHandleD (queueCopyD s info env).1) d := by
  have hwf' : ∀ x, pendHandleOptD s.pending = some x → 0 < x := fun x hx =>
    (hwf x hx).1
  have hwfb : ∀ x, pendHandleOptD s.pending = some x → x < s.nextHandle := fun x hx =>
    (hwf x hx).2
  by_cases h1 : handleIsInvalid info.sharedTextureHandle
  · have hred : queueCopyD s info env = (s, .err .invalidSourceHandle) := by
      simp [queueCopyD, h1]
    rw [hred]
    exact ⟨[], rfl, HandleLedger.refl_self _ _ hwf⟩
  · by_cases h2 : info.width = 0 ∨ info.height = 0
    · have hred : queueCopyD s info env = (s, .err .invalidSourceDimensions) := by
        simp [queueCopyD, h1, h2]
      rw [hred]
      exact ⟨[], rfl, HandleLedger.refl_self _ _ hwf⟩
    · by_cases h4 : env.dupOk
      · have hred : queueCopyD s info env =
            ({ s with
                nextHandle := s.nextHandle + 1
                pending := some ⟨s.nextHandle, info.width, info.height⟩
                events := dropOptD s.pending ++ .dupHandle s.nextHandle :: s.events },
              .ok) := by
          simp [queueCopyD, h1, h2, h4]
        rw [hred]
        refine ⟨dropOptD s.pending ++ [.dupHandle s.nextHandle], by simp, ?_⟩
        exact dupStepD_ledger s.nextHandle s.pending hpos hwf' hwfb
      · have h4f : env.dupOk = false := by simpa using h4
        have hred : queueCopyD s info env = (s, .err .duplicateHandleFailed) := by
          simp [queueCopyD, h1, h2, h4f]
        rw [hred]
        exact ⟨[], rfl, HandleLedger.refl_self _ _ hwf⟩

/-- Ledger of a whole sequence of Vulkan `queue_copy` calls. -/
theorem queueSeqV_ledger (calls : List (PaintInfo × QueueEnv)) (s : VulkanState)
    (hpos : 0 < s.nextHandle) (hwf : pendWF (pendingHandleV s) s.nextHandle) :
    ∃ d, (queueSeqV s calls).1.events = d ++ s.events ∧
      HandleLedger s.nextHandle (queueSeqV s calls).1.nextHandle
        (pendingHandleV s) (pendingHandleV (queueSeqV s calls).1) d ∧
      (queueSeqV s calls).1.cache = s.cache := by
  induction calls generalizing s with
  | nil => exact ⟨[], rfl, HandleLedger.refl_self _ _ hwf, rfl⟩
  | cons c rest ih =>
    obtain ⟨d1, he1, hl1, hc1⟩ := queueCopyV_ledger s c.1 c.2 hpos hwf
    have hpos1 : 0 < (queueCopyV s c.1 c.2).1.nextHandle := lt_of_lt_of_le hpos hl1.mono
    obtain ⟨d2, he2, hl2, hc2⟩ := ih (queueCopyV s c.1 c.2).1 hpos1 hl1.wf
    refine ⟨d2 ++ d1, ?_, ?_, ?_⟩
    · show (queueSeqV (queueCopyV s c.1 c.2).1 rest).1.events = (d2 ++ d1) ++ s.events
      rw [he2, he1, List.append_assoc]
    · exact hl1.trans hl2
    · show (queueSeqV (queueCopyV s c.1 c.2).1 rest).1.cache = s.cache
      rw [hc2, hc1]

/-- Ledger of a whole sequence of D3D12 `queue_copy` calls. -/
theorem queueSeqD_ledger (calls : List (PaintInfo × QueueEnv)) (s : D3D12State)
    (hpos : 0 < s.nextHandle) (hwf : pendWF (pendingHandleD s) s.nextHandle) :
    ∃ d, (queueSeqD s calls).1.events = d ++ s.events ∧
      HandleLedger s.nextHandle (queueSeqD s calls).1.nextHandle
        (pendingHandleD s) (pendingHandleD (queueSeqD s calls).1) d := by
  induction calls generalizing s with
  | nil => exact ⟨[], rfl, HandleLedger.refl_self _ _ hwf⟩
  | cons c rest ih =>
    obtain ⟨d1, he1, hl1⟩ := queueCopyD_ledger s c.1 c.2 hpos hwf
    have hpos1 : 0 < (queueCopyD s c.1 c.2).1.nextHandle := lt_of_lt_of_le hpos hl1.mono
    obtain ⟨d2, he2, hl2⟩ := ih (queueCopyD s c.1 c.2).1 hpos1 hl1.wf
    refine ⟨d2 ++ d1, ?_, ?_⟩
    · show (queueSeqD (queueCopyD s c.1 c.2).1 rest).1.events = (d2 ++ d1) ++ s.events
      rw [he2, he1, List.append_assoc]
    · exact hl1.trans hl2

/-- A successful Vulkan `queue_copy` leaves exactly the new request
pending. -/
theorem queueCopyV_ok_pending (s : VulkanState) (info : PaintInfo) (env : QueueEnv)
    (h : (queueCopyV s info env).2.isOk = true) :
    ∃ dh, (queueCopyV s info env).1.pending =
      some ⟨info.sharedTextureHandle, dh, info.width, info.height⟩ := by
  by_cases h1 : handleIsInvalid info.sharedTextureHandle
  · simp [queueCopyV, h1, CallResult.isOk] at h
  · by_cases h2 : info.width = 0 ∨ info.height = 0
    · simp [queueCopyV, h1, h2, CallResult.isOk] at h
    · by_cases h3 : needsImportB s.cache info.sharedTextureHandle info.width info.height
      · by_cases h4 : env.dupOk
        · exact ⟨some s.nextHandle, by simp [queueCopyV, h1, h2, h3, h4]⟩
        · have h4f : env.dupOk = false := by simpa using h4
          simp [queueCopyV, h1, h2, h3, h4f, CallResult.isOk] at h
      · have h3f : needsImportB s.cache info.sharedTextureHandle info.width info.height
            = false := by simpa using h3
        exact ⟨none, by simp [queueCopyV, h1, h2, h3f]⟩

/-- A failed Vulkan `queue_copy` leaves the state untouched. -/
theorem queueCopyV_fail_state (s : VulkanState) (info : PaintInfo) (env : QueueEnv)
    (h : (queueCopyV s info env).2.isOk = false) :
    (queueCopyV s info env).1 = s := by
  by_cases h1 : handleIsInvalid info.sharedTextureHandle
  · simp [queueCopyV, h1]
  · by_cases h2 : info.width = 0 ∨ info.height = 0
    · simp [queueCopyV, h1, h2]
    · by_cases h3 : needsImportB s.cache info.sharedTextureHandle info.width info.height
      · by_cases h4 : env.dupOk
        · simp [queueCopyV, h1, h2, h3, h4, CallResult.isOk] at h
        · have h4f : env.dupOk = false := by simpa using h4
          simp [queueCopyV, h1, h2, h3, h4f]
      · have h3f : needsImportB s.cache info.sharedTextureHandle info.width info.height
            = false := by simpa using h3
        simp [queueCopyV, h1, h2, h3f, CallResult.isOk] at h

/-- A successful D3D12 `queue_copy` leaves exactly the new request
pending. -/
theorem queueCopyD_ok_pending (s : D3D12State) (info : PaintInfo) (env : QueueEnv)
    (h : (queueCopyD s info env).2.isOk = true) :
    ∃ dh, (queueCopyD s info env).1.pending = some ⟨dh, info.width, info.height⟩ := by
  by_cases h1 : handleIsInvalid info.sharedTextureHandle
  · simp [queueCopyD, h1, CallResult.isOk] at h
  · by_cases h2 : info.width = 0 ∨ info.height = 0
    · simp [queueCopyD, h1, h2, CallResult.isOk] at h
    · by_cases h4 : env.dupOk
      · exact ⟨s.nextHandle, by simp [queueCopyD, h1, h2, h4]⟩
      · have h4f : env.dupOk = false := by simpa using h4
        simp [queueCopyD, h1, h2, h4f, CallResult.isOk] at h

/-- A failed D3D12 `queue_copy` leaves the state untouched. -/
theorem queueCopyD_fail_state (s : D3D12State) (info : PaintInfo) (env : QueueEnv)
    (h : (queueCopyD s info env).2.isOk = false) :
    (queueCopyD s info env).1 = s := by
  by_cases h1 : handleIsInvalid info.sharedTextureHandle
  · simp [queueCopyD, h1]
  · by_cases h2 : info.width = 0 ∨ info.height = 0
    · simp [queueCopyD, h1, h2]
    · by_cases h4 : env.dupOk
      · simp [queueCopyD, h1, h2, h4, CallResult.isOk] at h
      · have h4f : env.dupOk = false := by simpa using h4
        simp [queueCopyD, h1, h2, h4f]

/-- Latest-wins for the Vulkan queue: after a `queue_copy` sequence, the
pending request is exactly the last successfully queued one, or the original
pending value when no call succeeded. -/
theorem queueSeqV_latest (calls : List (PaintInfo × QueueEnv)) (s : VulkanState) :
    (queueSeqV s calls).2.length = calls.length ∧
    (match lastOk (calls.zip (queueSeqV s calls).2) with
     | none => (queueSeqV s calls).1.pending = s.pending
     | some c => ∃ dh, (queueSeqV s calls).1.pending =
         some ⟨c.1.sharedTextureHandle, dh, c.1.width, c.1.height⟩) := by
  induction calls generalizing s with
  | nil => exact ⟨rfl, rfl⟩
  | cons c rest ih =>
    obtain ⟨hlen, hmatch⟩ := ih (queueCopyV s c.1 c.2).1
    refine ⟨by simpa [queueSeqV] using hlen, ?_⟩
    show (match lastOk (((c :: rest).zip
        ((queueCopyV s c.1 c.2).2.isOk :: (queueSeqV (queueCopyV s c.1 c.2).1 rest).2)))
        with
      | none => (queueSeqV (queueCopyV s c.1 c.2).1 rest).1.pending = s.pending
      | some c2 => ∃ dh, (queueSeqV (queueCopyV s c.1 c.2).1 rest).1.pending =
          some ⟨c2.1.sharedTextureHandle, dh, c2.1.width, c2.1.height⟩)
    rw [List.zip_cons_cons]
    cases hml : lastOk (rest.zip (queueSeqV (queueCopyV s c.1 c.2).1 rest).2) with
    | some a =>
      rw [hml] at hmatch
      simpa [lastOk, hml] using hmatch
    | none =>
      rw [hml] at hmatch
      by_cases hok : (queueCopyV s c.1 c.2).2.isOk = true
      · obtain ⟨dh, hp⟩ := queueCopyV_ok_pending s c.1 c.2 hok
        simp only [lastOk, hml, hok, if_true]
        exact ⟨dh, hmatch.trans hp⟩
      · have hokf : (queueCopyV s c.1 c.2).2.isOk = false := by simpa using hok
        have hst := queueCopyV_fail_state s c.1 c.2 hokf
        simp only [lastOk, hml, hokf, Bool.false_eq_true, if_false, ite_false]
        rw [hmatch, hst]

/-- Latest-wins for the D3D12 queue. -/
theorem queueSeqD_latest (calls : List (PaintInfo × QueueEnv)) (s : D3D12State) :
    (queueSeqD s calls).2.length = calls.length ∧
    (match lastOk (calls.zip (queueSeqD s calls).2) with
     | none => (queueSeqD s calls).1.pending = s.pending
     | some c => ∃ dh, (queueSeqD s calls).1.pending =
         some ⟨dh, c.1.width, c.1.height⟩) := by
  induction calls generalizing s with
  | nil => exact ⟨rfl, rfl⟩
  | cons c rest ih =>
    obtain ⟨hlen, hmatch⟩ := ih (queueCopyD s c.1 c.2).1
    refine ⟨by simpa [queueSeqD] using hlen, ?_⟩
    show (match lastOk (((c :: rest).zip
        ((queueCopyD s c.1 c.2).2.isOk :: (queueSeqD (queueCopyD s c.1 c.2).1 rest).2)))
        with
      | none => (queueSeqD (queueCopyD s c.1 c.2).1 rest).1.pending = s.pending
      | some c2 => ∃ dh, (queueSeqD (queueCopyD s c.1 c.2).1 rest).1.pending =
          some ⟨dh, c2.1.width, c2.1.height⟩)
    rw [List.zip_cons_cons]
    cases hml : lastOk (rest.zip (queueSeqD (queueCopyD s c.1 c.2).1 rest).2) with
    | some a =>
      rw [hml] at hmatch
      simpa [lastOk, hml] using hmatch
    | none =>
      rw [hml] at hmatch
      by_cases hok : (queueCopyD s c.1 c.2).2.isOk = true
      · obtain ⟨dh, hp⟩ := queueCopyD_ok_pending s c.1 c.2 hok
        simp only [lastOk, hml, hok, if_true]
        exact ⟨dh, hmatch.trans hp⟩
      · have hokf : (queueCopyD s c.1 c.2).2.isOk = false := by simpa using hok
        have hst := queueCopyD_fail_state s c.1 c.2 hokf
        simp only [lastOk, hml, hokf, Bool.false_eq_true, if_false, ite_false]
        rw [hmatch, hst]

theorem countE_dropPendingD_import (p : PendingD3D12Copy) (k : Int) :
    countE (dropPendingD p) (.importImage k) = 0 := by
  unfold dropPendingD
  split <;> simp [countE_cons, countE_nil]

/-- The core of the Vulkan `process_pending_copy` never records an import
for a source identity other than the pending one's. -/
theorem processVCore_imports_other (s : VulkanState) (pend : PendingVulkanCopy)
    (env : VulkanEnv) (k : Int) (hne : pend.sourceHandle ≠ k) :
    countE (processVCore s pend env).1.events (.importImage k) =
      countE s.events (.importImage k) := by
  have himp_ne : ResEvent.importImage pend.sourceHandle ≠ ResEvent.importImage k := by
    simpa using hne
  cases hl : lookupEntry s.cache pend.sourceHandle with
  | none =>
    have hcf : containsKey s.cache pend.sourceHandle = false := by
      simp [containsKey, hl]
    simp only [processVCore, hl, hcf, Bool.false_eq_true, if_false, ite_false]
    cases hdup : pend.duplicatedHandle with
    | none => rfl
    | some hd =>
      by_cases himp : env.importOk = true
      · simp only [himp, if_true, ite_true]
        rw [processVFinish_import_count]
        simp [countE_cons, himp_ne]
      · have himpf : env.importOk = false := by simpa using himp
        simp [himpf]
  | some cached =>
    by_cases hmm : (cached.width != pend.width || cached.height != pend.height) = true
    · simp only [processVCore, hl, hmm, if_true, ite_true]
      have hnone : lookupEntry (removeEntry s.cache pend.sourceHandle) pend.sourceHandle
          = none := lookupEntry_removeEntry_self _ _
      have hcf : containsKey (removeEntry s.cache pend.sourceHandle) pend.sourceHandle
          = false := by simp [containsKey, hnone]
      simp only [hcf, Bool.false_eq_true, if_false, ite_false]
      cases hdup : pend.duplicatedHandle with
      | none =>
        simp [countE_append, countE_destroyImportedV_import]
      | some hd =>
        by_cases himp : env.importOk = true
        · simp only [himp, if_true, ite_true]
          rw [processVFinish_import_count]
          simp [countE_cons, countE_append, himp_ne, countE_destroyImportedV_import]
        · have himpf : env.importOk = false := by simpa using himp
          simp [himpf, countE_append, countE_destroyImportedV_import]
    · have hmmf : (cached.width != pend.width || cached.height != pend.height) = false := by
        simpa using hmm
      simp only [processVCore, hl, hmmf, Bool.false_eq_true, if_false, ite_false]
      have hct : containsKey s.cache pend.sourceHandle = true := by
        simp [containsKey, hl]
      simp only [hct, if_true, ite_true]
      exact processVFinish_import_count s pend env k

/-- The Vulkan `process_pending_copy` records imports only for the pending
request's source identity. -/
theorem processV_imports_only_pending (s : VulkanState) (env : VulkanEnv) (k : Int)
    (hk : ∀ p, s.pending = some p → p.sourceHandle ≠ k) :
    countE (processV s env).1.events (.importImage k) =
      countE s.events (.importImage k) := by
  cases hp : s.pending with
  | none => simp [processV, hp]
  | some pend =>
    have hne : pend.sourceHandle ≠ k := hk pend hp
    simp only [processV, hp]
    cases hdstv : env.dstValid with
    | false =>
      simp [hdstv, countE_append, countE_dropPendingV_import]
    | true =>
      simp only [hdstv, Bool.true_eq_false, if_false, ite_false]
      cases hflv : ({ s with pending := none } : VulkanState).flightGet
          ({ s with pending := none } : VulkanState).currentFrame with
      | false =>
        simp only [hflv, Bool.false_eq_true, if_false, ite_false]
        exact processVCore_imports_other _ pend env k hne
      | true =>
        simp only [hflv, if_true, ite_true]
        cases hsigv : env.fenceSignaled with
        | false => simp [hsigv]
        | true =>
          simp only [hsigv, Bool.true_eq_false, if_false, ite_false]
          have h := processVCore_imports_other
            (({ s with pending := none } : VulkanState).flightSet s.currentFrame false)
            pend env k hne
          rw [flightSet_events] at h
          exact h

/-- The D3D12 `process_pending_copy` records imports only for the pending
request's duplicated handle. -/
theorem processD_imports_only_pending (s : D3D12State) (env : D3D12Env) (k : Int)
    (hk : ∀ p, s.pending = some p → p.duplicatedHandle ≠ k) :
    countE (processD s env).1.events (.importImage k) =
      countE s.events (.importImage k) := by
  cases hdev : env.deviceOk with
  | false =>
    cases hlg : s.deviceRemovedLogged with
    | false => simp [processD, checkDeviceState, hdev, hlg, countE_cons]
    | true => simp [processD, checkDeviceState, hdev, hlg]
  | true =>
    cases hp : s.pending with
    | none => simp [processD, checkDeviceState, hdev, hp]
    | some pend =>
      have hne : pend.duplicatedHandle ≠ k := hk pend hp
      have himp_ne : ResEvent.importImage pend.duplicatedHandle ≠
          ResEvent.importImage k := by simpa using hne
      cases hdstv : env.dstValid with
      | false =>
        simp [processD, checkDeviceState, hdev, hp, hdstv, countE_append,
          countE_dropPendingD_import]
      | true =>
        cases hcfv : s.copyInFlight <;>
          cases hirv : s.importedResource <;>
          by_cases hvv : handleIsInvalid pend.duplicatedHandle = true <;>
          by_cases himpv : env.importOk = true <;>
          by_cases htv : env.texturePtr = 0 <;>
          by_cases hsubv : env.submitOk = true <;>
          by_cases hwv : 0 < s.fenceValue ∧ env.fenceCompleted = false <;>
          by_cases hlg : s.deviceRemovedLogged = true <;>
          simp [processD, checkDeviceState, waitForCopyD, hdev, hp, hdstv, hcfv, hirv,
            hvv, himpv, htv, hsubv, hwv, hlg, countE_append, countE_cons,
            countE_dropPendingD_import, himp_ne]

/-- C1: over any sequence of `queue_copy` calls on either importer without
an intervening `process_pending_copy`, at most one pending copy exists at
any time (the pending slot is a single option replaced wholesale), each new
successfully queued request replaces the previous one — the surviving
pending request is exactly the last successful call's, or the original one
when every call failed — and the handle ledger shows each handle duplicated
during the sequence was duplicated exactly once and closed exactly once
unless it belongs to the surviving request (no leak, no double close), with
no imports or submissions during queueing; a subsequent
`process_pending_copy` records imports only for the surviving (most
recently queued) request. -/
theorem c1_queue_copy_latest_wins_handle_ledger
    (sv : VulkanState) (sd : D3D12State) (calls : List (PaintInfo × QueueEnv))
    (hposv : 0 < sv.nextHandle) (hwfv : pendWF (pendingHandleV sv) sv.nextHandle)
    (hposd : 0 < sd.nextHandle) (hwfd : pendWF (pendingHandleD sd) sd.nextHandle) :
    (∃ d, (queueSeqV sv calls).1.events = d ++ sv.events ∧
      HandleLedger sv.nextHandle (queueSeqV sv calls).1.nextHandle
        (pendingHandleV sv) (pendingHandleV (queueSeqV sv calls).1) d ∧
      (queueSeqV sv calls).1.cache = sv.cache) ∧
    (match lastOk (calls.zip (queueSeqV sv calls).2) with
     | none => (queueSeqV sv calls).1.pending = sv.pending
     | some c => ∃ dh, (queueSeqV sv calls).1.pending =
         some ⟨c.1.sharedTextureHandle, dh, c.1.width, c.1.height⟩) ∧
    (∀ (env : VulkanEnv) (k : Int),
      (∀ p, (queueSeqV sv calls).1.pending = some p → p.sourceHandle ≠ k) →
      countE (processV (queueSeqV sv calls).1 env).1.events (.importImage k) =
        countE (queueSeqV sv calls).1.events (.importImage k)) ∧
    (∃ d, (queueSeqD sd calls).1.events = d ++ sd.events ∧
      HandleLedger sd.nextHandle (queueSeqD sd calls).1.nextHandle
        (pendingHandleD sd) (pendingHandleD (queueSeqD sd calls).1) d) ∧
    (match lastOk (calls.zip (queueSeqD sd calls).2) with
     | none => (queueSeqD sd calls).1.pending = sd.pending
     | some c => ∃ dh, (queueSeqD sd calls).1.pending =
         some ⟨dh, c.1.width, c.1.height⟩) ∧
    (∀ (env : D3D12Env) (k : Int),
      (∀ p, (queueSeqD sd calls).1.pending = some p → p.duplicatedHandle ≠ k) →
      countE (processD (queueSeqD sd calls).1 env).1.events (.importImage k) =
        countE (queueSeqD sd calls).1.events (.importImage k)) :=
  ⟨queueSeqV_ledger calls sv hposv hwfv,
    (queueSeqV_latest calls sv).2,
    fun env k hk => processV_imports_only_pending _ env k hk,
    queueSeqD_ledger calls sd hposd hwfd,
    (queueSeqD_latest calls sd).2,
    fun env k hk => processD_imports_only_pending _ env k hk⟩

/-- Witness for C1 at a concrete input: both importers in their freshly
constructed states and the two-call sequence `c1Calls` (identities `5` then
`6`); the surviving pending request is the second call's and the ledgers
exist. -/
theorem c1_queue_copy_latest_wins_handle_ledger_witness :
    (0 < vulkanInit.nextHandle ∧ pendWF (pendingHandleV vulkanInit) vulkanInit.nextHandle ∧
      0 < d3d12Init.nextHandle ∧ pendWF (pendingHandleD d3d12Init) d3d12Init.nextHandle) ∧
    (∃ dh, (queueSeqV vulkanInit c1Calls).1.pending = some ⟨6, dh, 50, 50⟩) ∧
    (∃ d, (queueSeqV vulkanInit c1Calls).1.events = d ++ vulkanInit.events ∧
      HandleLedger vulkanInit.nextHandle (queueSeqV vulkanInit c1Calls).1.nextHandle
        (pendingHandleV vulkanInit) (pendingHandleV (queueSeqV vulkanInit c1Calls).1) d ∧
      (queueSeqV vulkanInit c1Calls).1.cache = vulkanInit.cache) ∧
    (∃ dh, (queueSeqD d3d12Init c1Calls).1.pending = some ⟨dh, 50, 50⟩) ∧
    (∃ d, (queueSeqD d3d12Init c1Calls).1.events = d ++ d3d12Init.events ∧
      HandleLedger d3d12Init.nextHandle (queueSeqD d3d12Init c1Calls).1.nextHandle
        (pendingHandleD d3d12Init) (pendingHandleD (queueSeqD d3d12Init c1Calls).1) d) := by
  have hwfv : pendWF (pendingHandleV vulkanInit) vulkanInit.nextHandle := by
    intro x hx
    simp [pendingHandleV, pendHandleOpt, vulkanInit] at hx
  have hwfd : pendWF (pendingHandleD d3d12Init) d3d12Init.nextHandle := by
    intro x hx
    simp [pendingHandleD, pendHandleOptD, d3d12Init] at hx
  have h := c1_queue_copy_latest_wins_handle_ledger vulkanInit d3d12Init c1Calls
    (by decide) hwfv (by decide) hwfd
  exact ⟨⟨by decide, hwfv, by decide, hwfd⟩, h.2.1, h.1, h.2.2.2.2.1, h.2.2.2.1⟩

end GodotCef
